import Mathlib

/-!
Verification of the ChitLedger settlement engine (`core/utils.py`,
`core/views.py`, `core/serializers.py`, `core/models.py`).

The relational rows of `core/models.py` are embedded as Lean structures and
the tables as lists; the Django ORM queries used by the settlement functions
(`filter`, `first`, `exists`, `aggregate(Sum)`, `count`, `get_or_create`)
become list filters, finds, folds and sums.  `DecimalField` money values are
embedded as exact rationals (`ℚ`): addition/subtraction on `Decimal` column
values and multiplication by a slot count are exact, and the single
division (`ChitCreateSerializer.create`) is embedded with its rounding —
Python `Decimal` context division to 28 significant digits (ties to even)
followed by the 2-decimal-place `DecimalField` column quantization on save
(`decimalDiv` and `quantizeAt`).  `DateField` values are embedded as
year/month/day triples ordered lexicographically, which is `datetime.date`
comparison.
-/

namespace ChitLedger

/-- A calendar date (`datetime.date`); Python compares dates
lexicographically by (year, month, day). -/
structure Date where
  year : Int
  month : Int
  day : Int
deriving DecidableEq, Repr

/-- Python `date.__lt__`: lexicographic comparison. -/
def Date.before (a b : Date) : Bool :=
  decide (a.year < b.year) ||
    (a.year == b.year &&
      (decide (a.month < b.month) ||
        (a.month == b.month && decide (a.day < b.day))))

/-- Add `n` calendar months to a date, keeping the day-of-month.  Used only
to state the spec's phrase "start_date + duration_months". -/
def Date.addMonths (d : Date) (n : Nat) : Date :=
  let t : Int := d.month - 1 + n
  { year := d.year + t / 12, month := t % 12 + 1, day := d.day }

/-- Linearised month index `12*year + month`; two dates with valid months
compare on (year, month) exactly as their month indices do. -/
def Date.monthIndex (d : Date) : Int :=
  12 * d.year + d.month

/-- Embeds `Payment.STATUS_CHOICES` in `core/models.py`. -/
inductive PaymentStatus where
  | pending
  | paid
  | late
deriving DecidableEq, Repr

instance : BEq PaymentStatus := ⟨fun a b => decide (a = b)⟩

instance : LawfulBEq PaymentStatus where
  rfl := by intro a; simp [BEq.beq]
  eq_of_beq := by intro a b h; simpa [BEq.beq] using h

/-- Row of `User` (`core/models.py`): verified member account. -/
structure User where
  user_id : Nat
  phone_number : String
  name : String
deriving DecidableEq, Repr

/-- Row of `Chit` (`core/models.py`). -/
structure Chit where
  chit_id : Nat
  organizer_id : Nat
  title : String
  total_slots : Nat
  total_amount : ℚ
  lift_amount : ℚ
  start_date : Date
  duration_months : Nat
deriving DecidableEq, Repr

/-- Row of `Membership` (`core/models.py`): a verified user joined to a chit. -/
structure Membership where
  membership_id : Nat
  chit_id : Nat
  user_id : Nat
  slot_count : Nat
  is_organizer : Bool
deriving DecidableEq, Repr

/-- Row of `ExternalMember` (`core/models.py`). -/
structure ExternalMember where
  member_id : Nat
  chit_id : Nat
  phone_number : String
  name : Option String
  slot_count : Nat
  is_organizer : Bool
deriving DecidableEq, Repr

/-- Row of `ChitSchedule` (`core/models.py`): one row per (chit, month).  Both
lifter foreign keys are declared nullable (`null=True`). -/
structure ChitSchedule where
  id : Nat
  chit_id : Nat
  month_number : Nat
  lift_amount : ℚ
  no_lift_amount : ℚ
  lifted_by_membership : Option Nat
  lifted_by_external : Option Nat
deriving DecidableEq, Repr

/-- Row of `Payment` (`core/models.py`).  Both member foreign keys are embedded
as options because the creating code (`PaymentCreateSerializer`,
`generate_payment_expectations`) sets either one; note that `models.py`
declares the `membership` column itself without `null=True`, which is
examined separately via `paymentRowNullabilityOk`. -/
structure Payment where
  payment_id : Nat
  membership : Option Nat
  external_member : Option Nat
  chit_schedule : Nat
  month_number : Nat
  amount_paid : ℚ
  status : PaymentStatus
deriving DecidableEq, Repr

/-- Column nullability as declared in `core/models.py` lines 131-136:
`Payment.membership` is a `ForeignKey` without `null=True` (NOT NULL at the
database), while `Payment.external_member` has `null=True`. -/
def paymentRowNullabilityOk (p : Payment) : Bool :=
  p.membership.isSome

/-- The ledger store: one list per table, plus auto-increment counters for
the `AutoField` primary keys. -/
structure DB where
  users : List User
  chits : List Chit
  memberships : List Membership
  externals : List ExternalMember
  schedules : List ChitSchedule
  payments : List Payment
  next_chit_id : Nat
  next_external_id : Nat
  next_schedule_id : Nat
  next_payment_id : Nat
deriving DecidableEq, Repr

/-! ## 4.1 Month calculator: `calculate_current_month` (utils.py:12-41) -/

/-- Embeds `calculate_current_month` (utils.py:12-41).  `Chit.start_date` is a
non-nullable `DateField`, so the `if not chit.start_date` guard of the
source never fires in a persisted row and is dropped; "today" is passed as
a parameter instead of read from the clock. -/
def calculate_current_month (chit : Chit) (today : Date) : Option Int :=
  if Date.before today chit.start_date then
    none
  else
    let months_elapsed : Int :=
      (today.year - chit.start_date.year) * 12 +
        (today.month - chit.start_date.month) + 1
    if decide ((chit.duration_months : Int) < months_elapsed) then
      none
    else
      some months_elapsed

/-! ## 4.2 Slot accountant: `get_available_slots` (utils.py:44-67) -/

/-- Embeds `get_available_slots` (utils.py:44-67): `(used_slots, available_slots)`.
The `aggregate(Sum('slot_count'))` with its `or 0` default becomes a list
sum (which is already 0 on the empty list). -/
def get_available_slots (db : DB) (chit : Chit) : Nat × Int :=
  let verified_slots :=
    ((db.memberships.filter (fun m => m.chit_id == chit.chit_id)).map
      (fun m => m.slot_count)).sum
  let external_slots :=
    ((db.externals.filter (fun e => e.chit_id == chit.chit_id)).map
      (fun e => e.slot_count)).sum
  let used_slots := verified_slots + external_slots
  (used_slots, (chit.total_slots : Int) - used_slots)

/-! ## 4.3 Payment summary: `calculate_payment_summary` (utils.py:109-172) -/

/-- The `lifter_info` dict of `calculate_payment_summary`.  The `name` is an
option because `ExternalMember.name` is nullable (and because the lookup of
a dangling foreign key is embedded as a failing find rather than a raised
exception). -/
structure LifterInfo where
  name : Option String
  type : String
deriving DecidableEq, Repr

/-- The dict returned by `calculate_payment_summary`; money is kept as `ℚ`
(the source stringifies the decimals only for JSON output). -/
structure PaymentSummary where
  month_number : Nat
  lift_amount : ℚ
  no_lift_amount : ℚ
  total_expected : ℚ
  total_collected : ℚ
  balance : ℚ
  paid_count : Nat
  pending_count : Nat
  late_count : Nat
  lifter : Option LifterInfo
deriving DecidableEq, Repr

/-- Name of a membership's user, via the `membership.user` foreign key. -/
def membershipUserName (db : DB) (mid : Nat) : Option String :=
  (db.memberships.find? (fun m => m.membership_id == mid)).bind
    (fun m => (db.users.find? (fun u => u.user_id == m.user_id)).map
      (fun u => u.name))

/-- Embeds `calculate_payment_summary` (utils.py:109-172). -/
def calculate_payment_summary (db : DB) (chit : Chit) (month_number : Nat) :
    Option PaymentSummary :=
  match db.schedules.find?
      (fun s => s.chit_id == chit.chit_id && s.month_number == month_number) with
  | none => none
  | some schedule =>
    let payments := db.payments.filter (fun p => p.chit_schedule == schedule.id)
    let total_expected := schedule.no_lift_amount * ((chit.total_slots : ℚ) - 1)
    let total_collected :=
      ((payments.filter
          (fun p => p.status == .paid && decide (0 < p.amount_paid))).map
        (fun p => p.amount_paid)).sum
    let paid_count := (payments.filter (fun p => p.status == .paid)).length
    let pending_count := (payments.filter (fun p => p.status == .pending)).length
    let late_count := (payments.filter (fun p => p.status == .late)).length
    let lifter_info : Option LifterInfo :=
      match schedule.lifted_by_membership with
      | some mid => some ⟨membershipUserName db mid, "verified"⟩
      | none =>
        match schedule.lifted_by_external with
        | some eid =>
          some ⟨(db.externals.find? (fun e => e.member_id == eid)).bind
                  (fun e => e.name),
                "external"⟩
        | none => none
    some
      { month_number := month_number
        lift_amount := schedule.lift_amount
        no_lift_amount := schedule.no_lift_amount
        total_expected := total_expected
        total_collected := total_collected
        balance := total_expected - total_collected
        paid_count := paid_count
        pending_count := pending_count
        late_count := late_count
        lifter := lifter_info }

/-! ## 4.5 Lift eligibility: `check_if_member_can_lift` (utils.py:211-239) -/

/-- Embeds `check_if_member_can_lift` (utils.py:211-239): `(can_lift, reason)`. -/
def check_if_member_can_lift (db : DB) (chit : Chit) (member_id : Nat)
    (member_type : String) : Bool × String :=
  let already_lifted :=
    if member_type == "verified" then
      db.schedules.any
        (fun s => s.chit_id == chit.chit_id &&
          s.lifted_by_membership == some member_id)
    else
      db.schedules.any
        (fun s => s.chit_id == chit.chit_id &&
          s.lifted_by_external == some member_id)
  if already_lifted then
    (false, "Member has already lifted in this chit")
  else
    (true, "Eligible to lift")

/-! ## 4.6 Completion validator: `validate_chit_completion` (utils.py:242-283) -/

/-- Whether a payment belongs to the chit through its schedule
(`chit_schedule__chit=chit` join). -/
def paymentInChit (db : DB) (chit : Chit) (p : Payment) : Bool :=
  db.schedules.any (fun s => s.id == p.chit_schedule && s.chit_id == chit.chit_id)

/-- Embeds `validate_chit_completion` (utils.py:242-283): `(is_valid, issues)`. -/
def validate_chit_completion (db : DB) (chit : Chit) : Bool × List String :=
  let unassigned_months :=
    (db.schedules.filter
      (fun s => s.chit_id == chit.chit_id &&
        s.lifted_by_membership == none && s.lifted_by_external == none)).length
  let issues₁ : List String :=
    if 0 < unassigned_months then
      [toString unassigned_months ++ " month(s) don\u0027t have lifters assigned"]
    else []
  let pending_payments :=
    (db.payments.filter
      (fun p => paymentInChit db chit p &&
        (p.status == .pending || p.status == .late))).length
  let issues₂ : List String :=
    if 0 < pending_payments then
      [toString pending_payments ++ " payment(s) are still pending or late"]
    else []
  let schedules_without_payments :=
    (db.schedules.filter
      (fun s => s.chit_id == chit.chit_id &&
        (db.payments.filter (fun p => p.chit_schedule == s.id)).length == 0)).length
  let issues₃ : List String :=
    if 0 < schedules_without_payments then
      [toString schedules_without_payments ++ " month(s) have no payment records"]
    else []
  let issues := issues₁ ++ issues₂ ++ issues₃
  (issues.length == 0, issues)

/-! ## 4.4 Payment-expectation generator: `generate_payment_expectations`
(utils.py:343-404).  The two `get_or_create` loops (one over memberships,
one over external members) share their shape, so the loop body is defined
once, parametrised by the row constructor `mk` and the lookup predicate
`mtch` of `get_or_create`. -/

/-- One `get_or_create` iteration: if a payment matching the lookup already
exists nothing changes; otherwise a fresh row is appended and also recorded
in the `payments_created` accumulator. -/
def genStep {α : Type} (mk : Nat → α → Payment) (mtch : Payment → α → Bool)
    (acc : DB × List Payment) (a : α) : DB × List Payment :=
  if acc.1.payments.any (fun p => mtch p a) then acc
  else
    let p := mk acc.1.next_payment_id a
    ({ acc.1 with
        payments := acc.1.payments ++ [p],
        next_payment_id := acc.1.next_payment_id + 1 },
      acc.2 ++ [p])

/-- The `get_or_create` lookup for a verified member:
`membership=membership, chit_schedule=chit_schedule, month_number=...`. -/
def paymentMatchesMembership (s : ChitSchedule) (p : Payment) (m : Membership) :
    Bool :=
  p.membership == some m.membership_id && p.chit_schedule == s.id &&
    p.month_number == s.month_number

/-- The payment row built for a verified member (utils.py:363-379): the
lifter (matched by `lifted_by_membership_id`) gets
`-(total_amount - lift_amount)`, everyone else `no_lift_amount * slot_count`,
with default status `pending`. -/
def newMembershipPayment (chit : Chit) (s : ChitSchedule) (k : Nat)
    (m : Membership) : Payment :=
  { payment_id := k
    membership := some m.membership_id
    external_member := none
    chit_schedule := s.id
    month_number := s.month_number
    amount_paid :=
      if s.lifted_by_membership == some m.membership_id then
        -(chit.total_amount - s.lift_amount)
      else
        s.no_lift_amount * (m.slot_count : ℚ)
    status := .pending }

/-- The `get_or_create` lookup for an external member:
`external_member=external, chit_schedule=chit_schedule, month_number=...`
(note the source does not constrain the `membership` column here). -/
def paymentMatchesExternal (s : ChitSchedule) (p : Payment) (e : ExternalMember) :
    Bool :=
  p.external_member == some e.member_id && p.chit_schedule == s.id &&
    p.month_number == s.month_number

/-- The payment row built for an external member (utils.py:384-402); the
`membership` column is left unset. -/
def newExternalPayment (chit : Chit) (s : ChitSchedule) (k : Nat)
    (e : ExternalMember) : Payment :=
  { payment_id := k
    membership := none
    external_member := some e.member_id
    chit_schedule := s.id
    month_number := s.month_number
    amount_paid :=
      if s.lifted_by_external == some e.member_id then
        -(chit.total_amount - s.lift_amount)
      else
        s.no_lift_amount * (e.slot_count : ℚ)
    status := .pending }

/-- Embeds `generate_payment_expectations` (utils.py:343-404).  `chit` is the
schedule's chit (the source dereferences `chit_schedule.chit`); returns the
updated store together with `payments_created`. -/
def generate_payment_expectations (db : DB) (chit : Chit) (s : ChitSchedule) :
    DB × List Payment :=
  let afterMembers :=
    (db.memberships.filter (fun m => m.chit_id == chit.chit_id)).foldl
      (genStep (newMembershipPayment chit s) (paymentMatchesMembership s))
      (db, [])
  (db.externals.filter (fun e => e.chit_id == chit.chit_id)).foldl
    (genStep (newExternalPayment chit s) (paymentMatchesExternal s))
    afterMembers

/-! ## Add external member (views.py:251-293 and views.py:393-420).
`ChitViewSet.add_external_member` and `ChitAddExternalMemberView.post`
contain the identical slot-capacity guard and creation; embedded once. -/

/-- The body of `POST add-external-member` (validated serializer fields of
`ExternalMemberCreateSerializer`). -/
structure ExternalMemberRequest where
  phone_number : String
  name : Option String
  slot_count : Nat
  is_organizer : Bool
deriving DecidableEq, Repr

/-- Outcome of the add-external-member endpoint. -/
inductive AddMemberResult where
  | created (db : DB) (memberId : Nat)
  | badRequest (db : DB) (msg : String)
deriving DecidableEq, Repr

/-- Embeds `ChitAddExternalMemberView.post` (views.py:399-420): reject with 400 if
`current_slots + requested_slots > chit.total_slots`, otherwise create the
`ExternalMember` row. -/
def add_external_member (db : DB) (chit : Chit) (req : ExternalMemberRequest) :
    AddMemberResult :=
  let current_slots :=
    ((db.memberships.filter (fun m => m.chit_id == chit.chit_id)).map
      (fun m => m.slot_count)).sum +
    ((db.externals.filter (fun e => e.chit_id == chit.chit_id)).map
      (fun e => e.slot_count)).sum
  if decide (chit.total_slots < current_slots + req.slot_count) then
    .badRequest db "Not enough available slots"
  else
    .created
      { db with
          externals := db.externals ++
            [{ member_id := db.next_external_id
               chit_id := chit.chit_id
               phone_number := req.phone_number
               name := req.name
               slot_count := req.slot_count
               is_organizer := req.is_organizer }],
          next_external_id := db.next_external_id + 1 }
      db.next_external_id

/-! ## Assign lifter (views.py:503-531) -/

/-- Replace the schedule row with primary key `sid` (Django `save()` by
primary key). -/
def updateSchedule (db : DB) (sid : Nat) (f : ChitSchedule → ChitSchedule) :
    DB :=
  { db with schedules := db.schedules.map (fun s => if s.id == sid then f s else s) }

/-- Outcome of the assign-lifter / update-month endpoints. -/
inductive ScheduleWriteResult where
  | ok (db : DB)
  | notFound
  | badRequest
deriving DecidableEq, Repr

/-- Embeds `ScheduleAssignLifterView.post` (views.py:503-531): look up the schedule
and the member (scoped to the schedule's chit), then set the chosen lifter
column and null the other.  No eligibility check is performed here. -/
def schedule_assign_lifter (db : DB) (scheduleId : Nat) (member_type : String)
    (member_id : Nat) : ScheduleWriteResult :=
  match db.schedules.find? (fun s => s.id == scheduleId) with
  | none => .notFound
  | some schedule =>
    if member_type == "verified" then
      match db.memberships.find?
          (fun m => m.membership_id == member_id &&
            m.chit_id == schedule.chit_id) with
      | none => .notFound
      | some membership =>
        .ok (updateSchedule db scheduleId (fun s =>
          { s with
              lifted_by_membership := some membership.membership_id,
              lifted_by_external := none }))
    else if member_type == "external" then
      match db.externals.find?
          (fun e => e.member_id == member_id &&
            e.chit_id == schedule.chit_id) with
      | none => .notFound
      | some ext =>
        .ok (updateSchedule db scheduleId (fun s =>
          { s with
              lifted_by_external := some ext.member_id,
              lifted_by_membership := none }))
    else
      .badRequest

/-! ## Update month (views.py:486-500, serializers.py:223-235) -/

/-- A partial PATCH body for `ChitScheduleUpdateSerializer`: the outer
option is field presence in the request, the inner option is the (nullable)
value sent. -/
structure ScheduleUpdateRequest where
  no_lift_amount : Option ℚ
  lifted_by_membership : Option (Option Nat)
  lifted_by_external : Option (Option Nat)
deriving DecidableEq, Repr

/-- Embeds `ChitScheduleUpdateSerializer.validate` (serializers.py:229-235):
rejects only when the incoming data carries BOTH lifter fields non-null
(`data.get(...)` is `None` for an absent field). -/
def chitScheduleUpdateValidate (d : ScheduleUpdateRequest) : Bool :=
  !((d.lifted_by_membership.getD none).isSome &&
    (d.lifted_by_external.getD none).isSome)

/-- The `PrimaryKeyRelatedField` existence validation for a provided
`lifted_by_membership` value. -/
def membershipPkOk (db : DB) (v : Option (Option Nat)) : Bool :=
  match v with
  | some (some mid) => db.memberships.any (fun m => m.membership_id == mid)
  | _ => true

/-- The `PrimaryKeyRelatedField` existence validation for a provided
`lifted_by_external` value. -/
def externalPkOk (db : DB) (v : Option (Option Nat)) : Bool :=
  match v with
  | some (some eid) => db.externals.any (fun e => e.member_id == eid)
  | _ => true

/-- Embeds `ScheduleUpdateMonthView.patch` (views.py:486-500): partial update of
`no_lift_amount` and the two lifter columns; fields absent from the request
keep their stored values. -/
def schedule_update_month (db : DB) (scheduleId : Nat)
    (d : ScheduleUpdateRequest) : ScheduleWriteResult :=
  match db.schedules.find? (fun s => s.id == scheduleId) with
  | none => .notFound
  | some _ =>
    if membershipPkOk db d.lifted_by_membership &&
        externalPkOk db d.lifted_by_external &&
        chitScheduleUpdateValidate d then
      .ok (updateSchedule db scheduleId (fun s =>
        { s with
            no_lift_amount := d.no_lift_amount.getD s.no_lift_amount,
            lifted_by_membership :=
              d.lifted_by_membership.getD s.lifted_by_membership,
            lifted_by_external :=
              d.lifted_by_external.getD s.lifted_by_external }))
    else .badRequest

/-! ## Record payment (views.py:538-559, serializers.py:153-184) -/

/-- Input of `PaymentCreateSerializer`. -/
structure PaymentCreateRequest where
  membership : Option Nat
  external_member : Option Nat
  chit_schedule : Nat
  month_number : Nat
  amount_paid : ℚ
  status : PaymentStatus
deriving DecidableEq, Repr

/-- Embeds `PaymentCreateSerializer.validate` (serializers.py:171-184): reject if
both member references are provided, reject if neither is. -/
def paymentCreateValidate (d : PaymentCreateRequest) : Bool :=
  if d.membership.isSome && d.external_member.isSome then false
  else if !d.membership.isSome && !d.external_member.isSome then false
  else true

/-- Outcome of `POST /payments/`. -/
inductive PaymentCreateResult where
  | created (db : DB) (p : Payment)
  | badRequest
deriving DecidableEq, Repr

/-- Embeds `PaymentListCreateView.post` (views.py:552-559): validate then save the
row exactly as provided (the `PrimaryKeyRelatedField` existence checks on
the referenced rows). -/
def payment_create (db : DB) (d : PaymentCreateRequest) : PaymentCreateResult :=
  let memberOk :=
    match d.membership with
    | some mid => db.memberships.any (fun m => m.membership_id == mid)
    | none => true
  let externalOk :=
    match d.external_member with
    | some eid => db.externals.any (fun e => e.member_id == eid)
    | none => true
  let scheduleOk := db.schedules.any (fun s => s.id == d.chit_schedule)
  if memberOk && externalOk && scheduleOk && paymentCreateValidate d then
    let p : Payment :=
      { payment_id := db.next_payment_id
        membership := d.membership
        external_member := d.external_member
        chit_schedule := d.chit_schedule
        month_number := d.month_number
        amount_paid := d.amount_paid
        status := d.status }
    .created
      { db with
          payments := db.payments ++ [p],
          next_payment_id := db.next_payment_id + 1 }
      p
  else .badRequest

/-! ## Chit creation (serializers.py:32-76, views.py:348-356) -/

/-- Validated input of `ChitCreateSerializer`. -/
structure ChitCreateRequest where
  title : String
  total_slots : Nat
  total_amount : ℚ
  lift_amount : ℚ
  start_date : Date
  duration_months : Nat
  external_members_data : List ExternalMemberRequest
deriving DecidableEq, Repr

/-- Embeds `ChitCreateSerializer.validate` (serializers.py:41-51): the external
members listed at creation must not exceed `total_slots`. -/
def chitCreateValidate (d : ChitCreateRequest) : Bool :=
  !(decide (d.total_slots < (d.external_members_data.map
      (fun e => e.slot_count)).sum))

/-! Rounding semantics of the one `Decimal` division in the code
(serializers.py:66).  Python computes `Decimal / int` under the default
context — the quotient rounded to 28 significant digits, ties to even —
and the result is then stored into the `DecimalField(max_digits=12,
decimal_places=2)` column `ChitSchedule.no_lift_amount`, which Django
quantizes to 2 decimal places (ties to even) on save.  Both stages are
embedded below, value-exactly, over `ℚ`. -/

/-- Rounding of a rational to the nearest integer, ties to even: Python
`decimal`'s default `ROUND_HALF_EVEN`. -/
def roundHalfEven (x : ℚ) : ℤ :=
  if x - ⌊x⌋ < 1 / 2 then ⌊x⌋
  else if 1 / 2 < x - ⌊x⌋ then ⌊x⌋ + 1
  else if ⌊x⌋ % 2 = 0 then ⌊x⌋ else ⌊x⌋ + 1

/-- Rounding of a rational to integer multiples of `10 ^ (-s)`, ties to
even.  `quantizeAt 2` is the `DecimalField(decimal_places=2)` column
quantization Django applies on save. -/
def quantizeAt (s : ℤ) (x : ℚ) : ℚ :=
  (roundHalfEven (x * 10 ^ s) : ℚ) / 10 ^ s

/-- Decimal exponent of a nonzero rational: the unique `e` with
`10 ^ e ≤ |x| < 10 ^ (e + 1)` (the adjusted exponent Python `decimal` uses
to place the 28 significant digits). -/
def decimalExponent (x : ℚ) : ℤ :=
  if 1 ≤ |x| then (Nat.log 10 ⌊|x|⌋.toNat : ℤ)
  else
    let k := Nat.log 10 ⌊1 / |x|⌋.toNat
    if 1 ≤ |x| * 10 ^ k then -(k : ℤ) else -(k : ℤ) - 1

/-- Python `Decimal` division under the default context: the exact quotient
rounded to 28 significant digits, ties to even. -/
def decimalDiv (x y : ℚ) : ℚ :=
  let q := x / y
  if q = 0 then 0 else quantizeAt (27 - decimalExponent q) q

/-- Embeds `ChitCreateSerializer.create` (serializers.py:53-76): create the chit,
its initial external members, and one `ChitSchedule` per month `1 ..
duration_months` with `lift_amount` copied from the chit and
`no_lift_amount` the stored value of `(total_amount - lift_amount) /
(total_slots - 1)` when `total_slots > 1`, else `0`.  The division is the
Python `Decimal` division (28 significant digits, ties to even), and the
value is quantized to the 2-decimal `no_lift_amount` column on save; both
stages are embedded via `decimalDiv` and `quantizeAt 2`.  (The other
copied amounts are already 2-decimal column values, for which the column
quantization is the identity.) -/
def chit_create (db : DB) (organizer_id : Nat) (d : ChitCreateRequest) :
    DB × Chit :=
  let chit : Chit :=
    { chit_id := db.next_chit_id
      organizer_id := organizer_id
      title := d.title
      total_slots := d.total_slots
      total_amount := d.total_amount
      lift_amount := d.lift_amount
      start_date := d.start_date
      duration_months := d.duration_months }
  let newExternals : List ExternalMember :=
    d.external_members_data.mapIdx (fun i r =>
      { member_id := db.next_external_id + i
        chit_id := chit.chit_id
        phone_number := r.phone_number
        name := r.name
        slot_count := r.slot_count
        is_organizer := r.is_organizer })
  let default_no_lift : ℚ :=
    if 1 < d.total_slots then
      quantizeAt 2 (decimalDiv (d.total_amount - d.lift_amount)
        ((d.total_slots : ℚ) - 1))
    else 0
  let newSchedules : List ChitSchedule :=
    (List.range d.duration_months).map (fun i =>
      { id := db.next_schedule_id + i
        chit_id := chit.chit_id
        month_number := i + 1
        lift_amount := chit.lift_amount
        no_lift_amount := default_no_lift
        lifted_by_membership := none
        lifted_by_external := none })
  ({ db with
      chits := db.chits ++ [chit]
      externals := db.externals ++ newExternals
      schedules := db.schedules ++ newSchedules
      next_chit_id := db.next_chit_id + 1
      next_external_id := db.next_external_id + newExternals.length
      next_schedule_id := db.next_schedule_id + d.duration_months },
    chit)

/-! ## Projection helpers and concrete example states -/

/-- The stored state carried by a successful schedule write. -/
def writeResultDB : ScheduleWriteResult → Option DB
  | .ok db => some db
  | .notFound => none
  | .badRequest => none

/-- The row carried by a successful `POST /payments/`. -/
def createdPayment : PaymentCreateResult → Option Payment
  | .created _ p => some p
  | .badRequest => none

/-- Example chit: 5 slots, pool 500, baseline lift 100, starting 2025-01-15
for 12 months. -/
def exChit : Chit :=
  { chit_id := 1
    organizer_id := 1
    title := "Family Chit"
    total_slots := 5
    total_amount := 500
    lift_amount := 100
    start_date := ⟨2025, 1, 15⟩
    duration_months := 12 }

/-- Month 1 of `exChit`, lifter = membership 10. -/
def exSchedule1 : ChitSchedule :=
  { id := 100, chit_id := 1, month_number := 1, lift_amount := 100,
    no_lift_amount := 100, lifted_by_membership := some 10,
    lifted_by_external := none }

/-- Month 2 of `exChit`, no lifter yet. -/
def exSchedule2 : ChitSchedule :=
  { id := 101, chit_id := 1, month_number := 2, lift_amount := 100,
    no_lift_amount := 100, lifted_by_membership := none,
    lifted_by_external := none }

/-- Example ledger: two verified members (1 and 2 slots), one external
member (1 slot), the two schedules above, no payments yet. -/
def exDB : DB :=
  { users := [⟨1, "111", "Alice"⟩, ⟨2, "222", "Bob"⟩]
    chits := [exChit]
    memberships := [⟨10, 1, 1, 1, true⟩, ⟨11, 1, 2, 2, false⟩]
    externals := [⟨20, 1, "333", some "Carol", 1, false⟩]
    schedules := [exSchedule1, exSchedule2]
    payments := []
    next_chit_id := 2
    next_external_id := 21
    next_schedule_id := 102
    next_payment_id := 1000 }

/-- Schedule `exSchedule1` after the lifter was reassigned to external member 20
(same row identity: same id, chit and month). -/
def exSchedule1Reassigned : ChitSchedule :=
  { id := 100, chit_id := 1, month_number := 1, lift_amount := 100,
    no_lift_amount := 100, lifted_by_membership := none,
    lifted_by_external := some 20 }

/-- Ledger for the spec's payment-summary example: month-1 schedule with
`no_lift_amount = 100`, three paid contributions of 100, one pending
contribution, and the lifter's paid (negative) payout. -/
def exDBPaid : DB :=
  { exDB with
      payments :=
        [⟨1000, some 10, none, 100, 1, -400, .paid⟩,
         ⟨1001, some 11, none, 100, 1, 100, .paid⟩,
         ⟨1002, none, some 20, 100, 1, 100, .paid⟩,
         ⟨1003, some 12, none, 100, 1, 100, .paid⟩,
         ⟨1004, some 13, none, 100, 1, 100, .pending⟩]
      next_payment_id := 1005 }

/-- Request used for the payment-create nullability demonstration: an
external-member-only payment, exactly the shape
`PaymentCreateSerializer.validate` accepts. -/
def exPaymentReq : PaymentCreateRequest :=
  { membership := none, external_member := some 20, chit_schedule := 100,
    month_number := 1, amount_paid := 100, status := .pending }

/-- A 2-slot join request for `exChit`, whose 5 slots have 4 already used
in `exDB`: accepting it would overshoot capacity. -/
def exOverflowReq : ExternalMemberRequest :=
  { phone_number := "999", name := some "Dave", slot_count := 2,
    is_organizer := false }

/-- Chit-creation request whose schedule default is not a 2-decimal value:
`total_amount - lift_amount = 1` over `total_slots - 1 = 3` slots gives the
exact quotient `1/3`, which the program stores as `0.33`. -/
def exThirdReq : ChitCreateRequest :=
  { title := "Rounding"
    total_slots := 4
    total_amount := 101
    lift_amount := 100
    start_date := ⟨2026, 1, 1⟩
    duration_months := 1
    external_members_data := [] }

/-- Chit-creation request: 20 slots, pool 20000, lift 1000, 2 months, one
initial external member. -/
def exCreateReq : ChitCreateRequest :=
  { title := "Diwali Chit"
    total_slots := 20
    total_amount := 20000
    lift_amount := 1000
    start_date := ⟨2025, 11, 1⟩
    duration_months := 2
    external_members_data := [⟨"444", some "Rajesh", 1, false⟩] }

/-! ## Generic lemmas about the `get_or_create` loop -/

section GenLoopLemmas

variable {α : Type} (mk : Nat → α → Payment) (mtch : Payment → α → Bool)

theorem genStep_cases (acc : DB × List Payment) (a : α) :
    (acc.1.payments.any (fun p => mtch p a) = true ∧ genStep mk mtch acc a = acc) ∨
    (acc.1.payments.any (fun p => mtch p a) = false ∧
      genStep mk mtch acc a =
        ({ acc.1 with
            payments := acc.1.payments ++ [mk acc.1.next_payment_id a],
            next_payment_id := acc.1.next_payment_id + 1 },
          acc.2 ++ [mk acc.1.next_payment_id a])) := by
  by_cases h : acc.1.payments.any (fun p => mtch p a) = true
  · exact Or.inl ⟨h, by simp [genStep, h]⟩
  · exact Or.inr ⟨by simpa using h, by simp [genStep, h]⟩

theorem foldl_genStep_payments_ext (as : List α) (acc : DB × List Payment) :
    ∃ ex, (as.foldl (genStep mk mtch) acc).1.payments = acc.1.payments ++ ex := by
  induction as generalizing acc with
  | nil => exact ⟨[], by simp⟩
  | cons hd tl ih =>
    rcases ih (genStep mk mtch acc hd) with ⟨ex₂, hex₂⟩
    rcases genStep_cases mk mtch acc hd with ⟨_, heq⟩ | ⟨_, heq⟩
    · exact ⟨ex₂, by simpa [heq] using hex₂⟩
    · refine ⟨[mk acc.1.next_payment_id hd] ++ ex₂, ?_⟩
      rw [List.foldl_cons, hex₂, heq]
      simp

theorem foldl_genStep_created_ext (as : List α) (acc : DB × List Payment) :
    ∃ ex, (as.foldl (genStep mk mtch) acc).2 = acc.2 ++ ex := by
  induction as generalizing acc with
  | nil => exact ⟨[], by simp⟩
  | cons hd tl ih =>
    rcases ih (genStep mk mtch acc hd) with ⟨ex₂, hex₂⟩
    rcases genStep_cases mk mtch acc hd with ⟨_, heq⟩ | ⟨_, heq⟩
    · exact ⟨ex₂, by simpa [heq] using hex₂⟩
    · refine ⟨[mk acc.1.next_payment_id hd] ++ ex₂, ?_⟩
      rw [List.foldl_cons, hex₂, heq]
      simp

theorem foldl_genStep_fields (as : List α) (acc : DB × List Payment) :
    (as.foldl (genStep mk mtch) acc).1.users = acc.1.users ∧
    (as.foldl (genStep mk mtch) acc).1.chits = acc.1.chits ∧
    (as.foldl (genStep mk mtch) acc).1.memberships = acc.1.memberships ∧
    (as.foldl (genStep mk mtch) acc).1.externals = acc.1.externals ∧
    (as.foldl (genStep mk mtch) acc).1.schedules = acc.1.schedules := by
  induction as generalizing acc with
  | nil => simp
  | cons hd tl ih =>
    rcases ih (genStep mk mtch acc hd) with ⟨h1, h2, h3, h4, h5⟩
    rcases genStep_cases mk mtch acc hd with ⟨_, heq⟩ | ⟨_, heq⟩ <;>
      simp_all

theorem foldl_genStep_all_exist
    (hmk : ∀ k a, mtch (mk k a) a = true)
    (as : List α) (acc : DB × List Payment) (a : α) (ha : a ∈ as) :
    (as.foldl (genStep mk mtch) acc).1.payments.any (fun p => mtch p a) = true := by
  induction as generalizing acc with
  | nil => cases ha
  | cons hd tl ih =>
    rcases List.mem_cons.mp ha with rfl | hmem
    · -- after the step for `a` there is a matching row; it survives the rest
      have hstep : (genStep mk mtch acc a).1.payments.any (fun p => mtch p a) = true := by
        rcases genStep_cases mk mtch acc a with ⟨hex, heq⟩ | ⟨hex, heq⟩
        · rw [heq]; exact hex
        · rw [heq]; simp [hmk]
      rcases foldl_genStep_payments_ext mk mtch tl
          (genStep mk mtch acc a) with ⟨ex, hex⟩
      rw [List.foldl_cons, hex, List.any_append, hstep]
      simp
    · exact ih (genStep mk mtch acc hd) hmem

theorem foldl_genStep_id (as : List α) (acc : DB × List Payment)
    (h : ∀ a ∈ as, acc.1.payments.any (fun p => mtch p a) = true) :
    as.foldl (genStep mk mtch) acc = acc := by
  induction as with
  | nil => simp
  | cons hd tl ih =>
    have hstep : genStep mk mtch acc hd = acc := by
      simp [genStep, h hd (List.mem_cons_self hd tl)]
    rw [List.foldl_cons, hstep]
    exact ih (fun a ha => h a (List.mem_cons_of_mem hd ha))

theorem foldl_genStep_created_shape (as : List α) (acc : DB × List Payment)
    (p : Payment) (hp : p ∈ (as.foldl (genStep mk mtch) acc).2) :
    p ∈ acc.2 ∨ ∃ a ∈ as, ∃ k, p = mk k a := by
  induction as generalizing acc with
  | nil => exact Or.inl (by simpa using hp)
  | cons hd tl ih =>
    rw [List.foldl_cons] at hp
    rcases ih (genStep mk mtch acc hd) hp with hin | ⟨a, ha, k, hk⟩
    · rcases genStep_cases mk mtch acc hd with ⟨_, heq⟩ | ⟨_, heq⟩
      · rw [heq] at hin
        exact Or.inl hin
      · rw [heq] at hin
        rcases List.mem_append.mp hin with hold | hnew
        · exact Or.inl hold
        · exact Or.inr ⟨hd, List.mem_cons_self hd tl, acc.1.next_payment_id,
            (List.mem_singleton.mp hnew)⟩
    · exact Or.inr ⟨a, List.mem_cons_of_mem hd ha, k, hk⟩

theorem foldl_genStep_complete (key : α → Nat)
    (hcross : ∀ k a b, key a ≠ key b → mtch (mk k a) b = false)
    (as : List α) (acc : DB × List Payment) (a : α) (ha : a ∈ as)
    (hnd : (as.map key).Nodup)
    (hfresh : ∀ p ∈ acc.1.payments, mtch p a = false) :
    ∃ k, mk k a ∈ (as.foldl (genStep mk mtch) acc).2 := by
  induction as generalizing acc with
  | nil => cases ha
  | cons hd tl ih =>
    rw [List.map_cons, List.nodup_cons] at hnd
    rcases List.mem_cons.mp ha with rfl | hmem
    · -- the loop reaches `a` with no matching row present, so it creates one
      have hnone : acc.1.payments.any (fun p => mtch p a) = false := by
        rw [List.any_eq_false]
        intro p hp
        simp [hfresh p hp]
      have hstep : genStep mk mtch acc a =
          ({ acc.1 with
              payments := acc.1.payments ++ [mk acc.1.next_payment_id a],
              next_payment_id := acc.1.next_payment_id + 1 },
            acc.2 ++ [mk acc.1.next_payment_id a]) := by
        simp [genStep, hnone]
      rcases foldl_genStep_created_ext mk mtch tl
          (genStep mk mtch acc a) with ⟨ex, hex⟩
      refine ⟨acc.1.next_payment_id, ?_⟩
      rw [List.foldl_cons, hex, hstep]
      simp
    · -- `a` is further down; the step for `hd` cannot create a row matching `a`
      have hkey : key hd ≠ key a := by
        intro hEq
        exact hnd.1 (hEq ▸ List.mem_map_of_mem key hmem)
      have hfresh' : ∀ p ∈ (genStep mk mtch acc hd).1.payments, mtch p a = false := by
        rcases genStep_cases mk mtch acc hd with ⟨_, heq⟩ | ⟨_, heq⟩
        · rw [heq]; exact hfresh
        · rw [heq]
          intro p hp
          rcases List.mem_append.mp hp with hold | hnew
          · exact hfresh p hold
          · rw [List.mem_singleton.mp hnew]
            exact hcross acc.1.next_payment_id hd a hkey
      rw [List.foldl_cons]
      exact ih (genStep mk mtch acc hd) hmem hnd.2 hfresh'

end GenLoopLemmas

/-! ## Lemmas about `generate_payment_expectations` -/

theorem paymentMatchesMembership_mk (chit : Chit) (s : ChitSchedule) (k : Nat)
    (m : Membership) :
    paymentMatchesMembership s (newMembershipPayment chit s k m) m = true := by
  simp [paymentMatchesMembership, newMembershipPayment]

theorem paymentMatchesMembership_cross (chit : Chit) (s : ChitSchedule) (k : Nat)
    (a b : Membership) (h : a.membership_id ≠ b.membership_id) :
    paymentMatchesMembership s (newMembershipPayment chit s k a) b = false := by
  simp [paymentMatchesMembership, newMembershipPayment, h]

theorem paymentMatchesExternal_mk (chit : Chit) (s : ChitSchedule) (k : Nat)
    (e : ExternalMember) :
    paymentMatchesExternal s (newExternalPayment chit s k e) e = true := by
  simp [paymentMatchesExternal, newExternalPayment]

theorem paymentMatchesExternal_cross (chit : Chit) (s : ChitSchedule) (k : Nat)
    (a b : ExternalMember) (h : a.member_id ≠ b.member_id) :
    paymentMatchesExternal s (newExternalPayment chit s k a) b = false := by
  simp [paymentMatchesExternal, newExternalPayment, h]

theorem paymentMatchesExternal_of_membership_mk (chit : Chit) (s : ChitSchedule)
    (k : Nat) (m : Membership) (e : ExternalMember) :
    paymentMatchesExternal s (newMembershipPayment chit s k m) e = false := by
  simp [paymentMatchesExternal, newMembershipPayment]

theorem paymentMatchesMembership_congr (s s' : ChitSchedule)
    (hid : s'.id = s.id) (hmn : s'.month_number = s.month_number)
    (p : Payment) (m : Membership) :
    paymentMatchesMembership s' p m = paymentMatchesMembership s p m := by
  simp [paymentMatchesMembership, hid, hmn]

theorem paymentMatchesExternal_congr (s s' : ChitSchedule)
    (hid : s'.id = s.id) (hmn : s'.month_number = s.month_number)
    (p : Payment) (e : ExternalMember) :
    paymentMatchesExternal s' p e = paymentMatchesExternal s p e := by
  simp [paymentMatchesExternal, hid, hmn]

theorem generate_payments_ext (db : DB) (chit : Chit) (s : ChitSchedule) :
    ∃ ex, (generate_payment_expectations db chit s).1.payments =
      db.payments ++ ex := by
  rcases foldl_genStep_payments_ext
      (newMembershipPayment chit s) (paymentMatchesMembership s)
      (db.memberships.filter (fun m => m.chit_id == chit.chit_id)) (db, [])
    with ⟨ex₁, h₁⟩
  rcases foldl_genStep_payments_ext
      (newExternalPayment chit s) (paymentMatchesExternal s)
      (db.externals.filter (fun e => e.chit_id == chit.chit_id))
      ((db.memberships.filter (fun m => m.chit_id == chit.chit_id)).foldl
        (genStep (newMembershipPayment chit s) (paymentMatchesMembership s))
        (db, []))
    with ⟨ex₂, h₂⟩
  exact ⟨ex₁ ++ ex₂, by
    simp only [generate_payment_expectations]
    rw [h₂, h₁, List.append_assoc]⟩

theorem generate_fields (db : DB) (chit : Chit) (s : ChitSchedule) :
    (generate_payment_expectations db chit s).1.users = db.users ∧
    (generate_payment_expectations db chit s).1.chits = db.chits ∧
    (generate_payment_expectations db chit s).1.memberships = db.memberships ∧
    (generate_payment_expectations db chit s).1.externals = db.externals ∧
    (generate_payment_expectations db chit s).1.schedules = db.schedules := by
  have h₁ := foldl_genStep_fields
    (newMembershipPayment chit s) (paymentMatchesMembership s)
    (db.memberships.filter (fun m => m.chit_id == chit.chit_id)) (db, [])
  have h₂ := foldl_genStep_fields
    (newExternalPayment chit s) (paymentMatchesExternal s)
    (db.externals.filter (fun e => e.chit_id == chit.chit_id))
    ((db.memberships.filter (fun m => m.chit_id == chit.chit_id)).foldl
      (genStep (newMembershipPayment chit s) (paymentMatchesMembership s))
      (db, []))
  simp only [generate_payment_expectations]
  exact ⟨h₂.1.trans h₁.1, h₂.2.1.trans h₁.2.1, h₂.2.2.1.trans h₁.2.2.1,
    h₂.2.2.2.1.trans h₁.2.2.2.1, h₂.2.2.2.2.trans h₁.2.2.2.2⟩

theorem generate_members_exist (db : DB) (chit : Chit) (s : ChitSchedule)
    (m : Membership) (hm : m ∈ db.memberships) (hc : m.chit_id = chit.chit_id) :
    (generate_payment_expectations db chit s).1.payments.any
      (fun p => paymentMatchesMembership s p m) = true := by
  have hmem : m ∈ db.memberships.filter (fun m => m.chit_id == chit.chit_id) :=
    List.mem_filter.mpr ⟨hm, by simp [hc]⟩
  have h₁ := foldl_genStep_all_exist
    (newMembershipPayment chit s) (paymentMatchesMembership s)
    (fun k a => paymentMatchesMembership_mk chit s k a)
    (db.memberships.filter (fun m => m.chit_id == chit.chit_id)) (db, []) m hmem
  rcases foldl_genStep_payments_ext
      (newExternalPayment chit s) (paymentMatchesExternal s)
      (db.externals.filter (fun e => e.chit_id == chit.chit_id))
      ((db.memberships.filter (fun m => m.chit_id == chit.chit_id)).foldl
        (genStep (newMembershipPayment chit s) (paymentMatchesMembership s))
        (db, []))
    with ⟨ex, hex⟩
  simp only [generate_payment_expectations]
  rw [hex, List.any_append, h₁]
  simp

theorem generate_externals_exist (db : DB) (chit : Chit) (s : ChitSchedule)
    (e : ExternalMember) (he : e ∈ db.externals) (hc : e.chit_id = chit.chit_id) :
    (generate_payment_expectations db chit s).1.payments.any
      (fun p => paymentMatchesExternal s p e) = true := by
  have hmem : e ∈ db.externals.filter (fun e => e.chit_id == chit.chit_id) :=
    List.mem_filter.mpr ⟨he, by simp [hc]⟩
  simp only [generate_payment_expectations]
  exact foldl_genStep_all_exist
    (newExternalPayment chit s) (paymentMatchesExternal s)
    (fun k a => paymentMatchesExternal_mk chit s k a)
    (db.externals.filter (fun e => e.chit_id == chit.chit_id)) _ e hmem

theorem foldl_genStep_payments_shape {α : Type} (mk : Nat → α → Payment)
    (mtch : Payment → α → Bool) (as : List α) (acc : DB × List Payment)
    (p : Payment) (hp : p ∈ (as.foldl (genStep mk mtch) acc).1.payments) :
    p ∈ acc.1.payments ∨ ∃ a ∈ as, ∃ k, p = mk k a := by
  induction as generalizing acc with
  | nil => exact Or.inl (by simpa using hp)
  | cons hd tl ih =>
    rw [List.foldl_cons] at hp
    rcases ih (genStep mk mtch acc hd) hp with hin | ⟨a, ha, k, hk⟩
    · rcases genStep_cases mk mtch acc hd with ⟨_, heq⟩ | ⟨_, heq⟩
      · rw [heq] at hin
        exact Or.inl hin
      · rw [heq] at hin
        rcases List.mem_append.mp hin with hold | hnew
        · exact Or.inl hold
        · exact Or.inr ⟨hd, List.mem_cons_self hd tl, acc.1.next_payment_id,
            (List.mem_singleton.mp hnew)⟩
    · exact Or.inr ⟨a, List.mem_cons_of_mem hd ha, k, hk⟩

theorem newMembershipPayment_amount (chit : Chit) (s : ChitSchedule) (k : Nat)
    (m : Membership) :
    (newMembershipPayment chit s k m).amount_paid =
      if s.lifted_by_membership = some m.membership_id then
        -(chit.total_amount - s.lift_amount)
      else s.no_lift_amount * (m.slot_count : ℚ) := by
  by_cases h : s.lifted_by_membership = some m.membership_id <;>
    simp [newMembershipPayment, h]

theorem newExternalPayment_amount (chit : Chit) (s : ChitSchedule) (k : Nat)
    (e : ExternalMember) :
    (newExternalPayment chit s k e).amount_paid =
      if s.lifted_by_external = some e.member_id then
        -(chit.total_amount - s.lift_amount)
      else s.no_lift_amount * (e.slot_count : ℚ) := by
  by_cases h : s.lifted_by_external = some e.member_id <;>
    simp [newExternalPayment, h]

/-- Any row in `payments_created` is a freshly built membership row or a
freshly built external row for a member of the schedule's chit. -/
theorem generate_created_shape (db : DB) (chit : Chit) (s : ChitSchedule)
    (p : Payment) (hp : p ∈ (generate_payment_expectations db chit s).2) :
    (∃ m, m ∈ db.memberships ∧ m.chit_id = chit.chit_id ∧
      ∃ k, p = newMembershipPayment chit s k m) ∨
    (∃ e, e ∈ db.externals ∧ e.chit_id = chit.chit_id ∧
      ∃ k, p = newExternalPayment chit s k e) := by
  simp only [generate_payment_expectations] at hp
  rcases foldl_genStep_created_shape _ _ _ _ p hp with hin | ⟨e, he, k, hk⟩
  · rcases foldl_genStep_created_shape _ _ _ _ p hin with hnil | ⟨m, hm, k, hk⟩
    · simp at hnil
    · rcases List.mem_filter.mp hm with ⟨hm₁, hm₂⟩
      exact Or.inl ⟨m, hm₁, by simpa using hm₂, k, hk⟩
  · rcases List.mem_filter.mp he with ⟨he₁, he₂⟩
    exact Or.inr ⟨e, he₁, by simpa using he₂, k, hk⟩

/-- C4: `generate_payment_expectations` is idempotent.  Running it a second
time on the same schedule row (same primary key, chit and month number, but
possibly with a different lifter assignment or different amounts) leaves
the ledger exactly as the first run left it — no duplicate row for any
(member, schedule) pair is created and no existing row is overwritten —
and the second run reports an empty `payments_created` list. -/
theorem generate_payment_expectations_idempotent (db : DB) (chit : Chit)
    (s s' : ChitSchedule) (hid : s'.id = s.id)
    (hmn : s'.month_number = s.month_number) :
    generate_payment_expectations
        (generate_payment_expectations db chit s).1 chit s' =
      ((generate_payment_expectations db chit s).1, []) := by
  have hfields := generate_fields db chit s
  have hmemEq : (generate_payment_expectations db chit s).1.memberships =
      db.memberships := hfields.2.2.1
  have hextEq : (generate_payment_expectations db chit s).1.externals =
      db.externals := hfields.2.2.2.1
  have hfunM : (fun p => paymentMatchesMembership s' p) =
      (fun p => paymentMatchesMembership s p) := by
    funext p
    funext m
    exact paymentMatchesMembership_congr s s' hid hmn p m
  have hfunE : (fun p => paymentMatchesExternal s' p) =
      (fun p => paymentMatchesExternal s p) := by
    funext p
    funext e
    exact paymentMatchesExternal_congr s s' hid hmn p e
  have hallM : ∀ m ∈ (generate_payment_expectations db chit s).1.memberships.filter
      (fun m => m.chit_id == chit.chit_id),
      (generate_payment_expectations db chit s).1.payments.any
        (fun p => paymentMatchesMembership s' p m) = true := by
    intro m hm
    rcases List.mem_filter.mp hm with ⟨hm₁, hm₂⟩
    rw [hmemEq] at hm₁
    have : (fun p => paymentMatchesMembership s' p m) =
        (fun p => paymentMatchesMembership s p m) := by
      funext p
      exact paymentMatchesMembership_congr s s' hid hmn p m
    rw [this]
    exact generate_members_exist db chit s m hm₁ (by simpa using hm₂)
  have hallE : ∀ e ∈ (generate_payment_expectations db chit s).1.externals.filter
      (fun e => e.chit_id == chit.chit_id),
      (generate_payment_expectations db chit s).1.payments.any
        (fun p => paymentMatchesExternal s' p e) = true := by
    intro e he
    rcases List.mem_filter.mp he with ⟨he₁, he₂⟩
    rw [hextEq] at he₁
    have : (fun p => paymentMatchesExternal s' p e) =
        (fun p => paymentMatchesExternal s p e) := by
      funext p
      exact paymentMatchesExternal_congr s s' hid hmn p e
    rw [this]
    exact generate_externals_exist db chit s e he₁ (by simpa using he₂)
  have hM := foldl_genStep_id
    (newMembershipPayment chit s') (paymentMatchesMembership s')
    ((generate_payment_expectations db chit s).1.memberships.filter
      (fun m => m.chit_id == chit.chit_id))
    ((generate_payment_expectations db chit s).1, []) hallM
  conv_lhs => rw [generate_payment_expectations]
  rw [hM]
  exact foldl_genStep_id
    (newExternalPayment chit s') (paymentMatchesExternal s')
    ((generate_payment_expectations db chit s).1.externals.filter
      (fun e => e.chit_id == chit.chit_id))
    ((generate_payment_expectations db chit s).1, []) hallE

/-- Witness for C4: running the generator on `exSchedule1`, then again after
the lifter was reassigned from membership 10 to external member 20
(`exSchedule1Reassigned`), changes nothing the second time. -/
theorem generate_payment_expectations_idempotent_witness :
    exSchedule1Reassigned.id = exSchedule1.id ∧
    exSchedule1Reassigned.month_number = exSchedule1.month_number ∧
    generate_payment_expectations
        (generate_payment_expectations exDB exChit exSchedule1).1 exChit
        exSchedule1Reassigned =
      ((generate_payment_expectations exDB exChit exSchedule1).1, []) :=
  ⟨by decide, by decide,
    generate_payment_expectations_idempotent exDB exChit exSchedule1
      exSchedule1Reassigned (by decide) (by decide)⟩

/-- C1: for every `ChitSchedule`, `generate_payment_expectations` gives the
member matched by the schedule's recorded lifter id the amount
`-(chit.total_amount - schedule.lift_amount)` and every other member of the
chit (verified or external) the amount
`schedule.no_lift_amount * member.slot_count`, all with status `pending` on
creation; every chit member without an existing row gets such a row.  The
lifter amount is negative whenever `schedule.lift_amount <
chit.total_amount`, and the non-lifter amounts are positive whenever
`no_lift_amount` is positive and the member holds at least one slot. -/
theorem generate_payment_expectations_amounts (db : DB) (chit : Chit)
    (s : ChitSchedule)
    (hndm : (db.memberships.map Membership.membership_id).Nodup)
    (hnde : (db.externals.map ExternalMember.member_id).Nodup) :
    (∀ p ∈ (generate_payment_expectations db chit s).2,
        p.status = .pending ∧ p.chit_schedule = s.id ∧
        p.month_number = s.month_number ∧
        ((∃ m ∈ db.memberships, m.chit_id = chit.chit_id ∧
            p.membership = some m.membership_id ∧ p.external_member = none ∧
            p.amount_paid =
              (if s.lifted_by_membership = some m.membership_id then
                -(chit.total_amount - s.lift_amount)
              else s.no_lift_amount * (m.slot_count : ℚ))) ∨
         (∃ e ∈ db.externals, e.chit_id = chit.chit_id ∧
            p.external_member = some e.member_id ∧ p.membership = none ∧
            p.amount_paid =
              (if s.lifted_by_external = some e.member_id then
                -(chit.total_amount - s.lift_amount)
              else s.no_lift_amount * (e.slot_count : ℚ))))) ∧
    (∀ m ∈ db.memberships, m.chit_id = chit.chit_id →
        (∀ p ∈ db.payments, paymentMatchesMembership s p m = false) →
        ∃ p ∈ (generate_payment_expectations db chit s).2,
          p.membership = some m.membership_id ∧ p.status = .pending ∧
          p.amount_paid =
            (if s.lifted_by_membership = some m.membership_id then
              -(chit.total_amount - s.lift_amount)
            else s.no_lift_amount * (m.slot_count : ℚ))) ∧
    (∀ e ∈ db.externals, e.chit_id = chit.chit_id →
        (∀ p ∈ db.payments, paymentMatchesExternal s p e = false) →
        ∃ p ∈ (generate_payment_expectations db chit s).2,
          p.external_member = some e.member_id ∧ p.status = .pending ∧
          p.amount_paid =
            (if s.lifted_by_external = some e.member_id then
              -(chit.total_amount - s.lift_amount)
            else s.no_lift_amount * (e.slot_count : ℚ))) ∧
    (s.lift_amount < chit.total_amount →
        ∀ p ∈ (generate_payment_expectations db chit s).2,
          ((p.membership ≠ none ∧ p.membership = s.lifted_by_membership) ∨
            (p.external_member ≠ none ∧
              p.external_member = s.lifted_by_external)) →
          p.amount_paid < 0) ∧
    (0 < s.no_lift_amount →
        ∀ p ∈ (generate_payment_expectations db chit s).2,
          (∀ m ∈ db.memberships, p.membership = some m.membership_id →
            s.lifted_by_membership ≠ some m.membership_id → 1 ≤ m.slot_count →
            0 < p.amount_paid) ∧
          (∀ e ∈ db.externals, p.external_member = some e.member_id →
            s.lifted_by_external ≠ some e.member_id → 1 ≤ e.slot_count →
            0 < p.amount_paid)) := by
  have hshape := generate_created_shape db chit s
  have hclause1 : ∀ p ∈ (generate_payment_expectations db chit s).2,
      p.status = .pending ∧ p.chit_schedule = s.id ∧
      p.month_number = s.month_number ∧
      ((∃ m ∈ db.memberships, m.chit_id = chit.chit_id ∧
          p.membership = some m.membership_id ∧ p.external_member = none ∧
          p.amount_paid =
            (if s.lifted_by_membership = some m.membership_id then
              -(chit.total_amount - s.lift_amount)
            else s.no_lift_amount * (m.slot_count : ℚ))) ∨
       (∃ e ∈ db.externals, e.chit_id = chit.chit_id ∧
          p.external_member = some e.member_id ∧ p.membership = none ∧
          p.amount_paid =
            (if s.lifted_by_external = some e.member_id then
              -(chit.total_amount - s.lift_amount)
            else s.no_lift_amount * (e.slot_count : ℚ)))) := by
    intro p hp
    rcases hshape p hp with ⟨m, hm, hc, k, rfl⟩ | ⟨e, he, hc, k, rfl⟩
    · refine ⟨rfl, rfl, rfl, Or.inl ⟨m, hm, hc, rfl, rfl, ?_⟩⟩
      exact newMembershipPayment_amount chit s k m
    · refine ⟨rfl, rfl, rfl, Or.inr ⟨e, he, hc, rfl, rfl, ?_⟩⟩
      exact newExternalPayment_amount chit s k e
  refine ⟨hclause1, ?_, ?_, ?_, ?_⟩
  · -- completeness for verified members
    intro m hm hc hfresh
    have hmem : m ∈ db.memberships.filter (fun m => m.chit_id == chit.chit_id) :=
      List.mem_filter.mpr ⟨hm, by simp [hc]⟩
    have hnd' : ((db.memberships.filter
        (fun m => m.chit_id == chit.chit_id)).map
          Membership.membership_id).Nodup :=
      hndm.sublist ((List.filter_sublist db.memberships).map Membership.membership_id)
    rcases foldl_genStep_complete (newMembershipPayment chit s)
        (paymentMatchesMembership s) Membership.membership_id
        (fun k a b h => paymentMatchesMembership_cross chit s k a b h)
        (db.memberships.filter (fun m => m.chit_id == chit.chit_id))
        (db, []) m hmem hnd' (by simpa using hfresh) with ⟨k, hk⟩
    rcases foldl_genStep_created_ext
        (newExternalPayment chit s) (paymentMatchesExternal s)
        (db.externals.filter (fun e => e.chit_id == chit.chit_id))
        ((db.memberships.filter (fun m => m.chit_id == chit.chit_id)).foldl
          (genStep (newMembershipPayment chit s) (paymentMatchesMembership s))
          (db, [])) with ⟨ex, hex⟩
    refine ⟨newMembershipPayment chit s k m, ?_, rfl, rfl,
      newMembershipPayment_amount chit s k m⟩
    simp only [generate_payment_expectations]
    rw [hex]
    exact List.mem_append_left _ hk
  · -- completeness for external members
    intro e he hc hfresh
    have hmem : e ∈ db.externals.filter (fun e => e.chit_id == chit.chit_id) :=
      List.mem_filter.mpr ⟨he, by simp [hc]⟩
    have hnd' : ((db.externals.filter
        (fun e => e.chit_id == chit.chit_id)).map
          ExternalMember.member_id).Nodup :=
      hnde.sublist ((List.filter_sublist db.externals).map ExternalMember.member_id)
    have hfresh' : ∀ p ∈ ((db.memberships.filter
        (fun m => m.chit_id == chit.chit_id)).foldl
          (genStep (newMembershipPayment chit s) (paymentMatchesMembership s))
          (db, [])).1.payments, paymentMatchesExternal s p e = false := by
      intro p hp
      rcases foldl_genStep_payments_shape _ _ _ _ p hp with hold | ⟨m, _, k, rfl⟩
      · exact hfresh p hold
      · exact paymentMatchesExternal_of_membership_mk chit s k m e
    rcases foldl_genStep_complete (newExternalPayment chit s)
        (paymentMatchesExternal s) ExternalMember.member_id
        (fun k a b h => paymentMatchesExternal_cross chit s k a b h)
        (db.externals.filter (fun e => e.chit_id == chit.chit_id))
        _ e hmem hnd' hfresh' with ⟨k, hk⟩
    refine ⟨newExternalPayment chit s k e, ?_, rfl, rfl,
      newExternalPayment_amount chit s k e⟩
    simp only [generate_payment_expectations]
    exact hk
  · -- the lifter's row carries a negative amount
    intro hlift p hp hcase
    rcases hclause1 p hp with ⟨_, _, _, ⟨m, _, _, hpm, hpe, hamt⟩ | ⟨e, _, _, hpe, hpm, hamt⟩⟩
    · rcases hcase with ⟨_, hEq⟩ | ⟨hne, _⟩
      · rw [hamt, if_pos (by rw [← hEq, hpm])]
        linarith
      · exact absurd hpe hne
    · rcases hcase with ⟨hne, _⟩ | ⟨_, hEq⟩
      · exact absurd hpm hne
      · rw [hamt, if_pos (by rw [← hEq, hpe])]
        linarith
  · -- non-lifter rows carry positive amounts
    intro hpos p hp
    rcases hclause1 p hp with ⟨_, _, _, hdisj⟩
    constructor
    · intro m hm hpm hnl hslot
      rcases hdisj with ⟨m', hm', _, hpm', _, hamt⟩ | ⟨e', _, _, _, hpm', _⟩
      · have hid : m'.membership_id = m.membership_id := by
          have := hpm'.symm.trans hpm
          simpa using this
        have hmm : m' = m :=
          List.inj_on_of_nodup_map hndm hm' hm hid
        subst hmm
        rw [hamt, if_neg hnl]
        have : (0 : ℚ) < (m'.slot_count : ℚ) := by
          exact_mod_cast Nat.lt_of_lt_of_le Nat.zero_lt_one hslot
        exact mul_pos hpos this
      · rw [hpm'] at hpm
        cases hpm
    · intro e he hpe hnl hslot
      rcases hdisj with ⟨m', _, _, _, hpe', _⟩ | ⟨e', he', _, hpe', _, hamt⟩
      · rw [hpe'] at hpe
        cases hpe
      · have hid : e'.member_id = e.member_id := by
          have := hpe'.symm.trans hpe
          simpa using this
        have hee : e' = e :=
          List.inj_on_of_nodup_map hnde he' he hid
        subst hee
        rw [hamt, if_neg hnl]
        have : (0 : ℚ) < (e'.slot_count : ℚ) := by
          exact_mod_cast Nat.lt_of_lt_of_le Nat.zero_lt_one hslot
        exact mul_pos hpos this

theorem count_range_eq (n a : Nat) :
    (List.range n).count a = if a < n then 1 else 0 := by
  by_cases h : a < n
  · rw [if_pos h]
    exact List.count_eq_one_of_mem (List.nodup_range n) (List.mem_range.mpr h)
  · rw [if_neg h]
    exact List.count_eq_zero_of_not_mem (fun hc => h (List.mem_range.mp hc))

theorem paymentStatus_beq_eval :
    ((PaymentStatus.pending == PaymentStatus.pending) = true) ∧
    ((PaymentStatus.pending == PaymentStatus.paid) = false) ∧
    ((PaymentStatus.pending == PaymentStatus.late) = false) ∧
    ((PaymentStatus.paid == PaymentStatus.pending) = false) ∧
    ((PaymentStatus.paid == PaymentStatus.paid) = true) ∧
    ((PaymentStatus.paid == PaymentStatus.late) = false) ∧
    ((PaymentStatus.late == PaymentStatus.pending) = false) ∧
    ((PaymentStatus.late == PaymentStatus.paid) = false) ∧
    ((PaymentStatus.late == PaymentStatus.late) = true) := by
  refine ⟨rfl, rfl, rfl, rfl, rfl, rfl, rfl, rfl, rfl⟩

/-- C2: `calculate_payment_summary` returns `None` exactly when no schedule
row exists for the requested (chit, month); otherwise, for the first
matching schedule, it reports `total_expected = no_lift_amount *
(total_slots - 1)`, `total_collected` = the sum of `amount_paid` over the
schedule's payments with status `paid` and positive amount, `balance =
total_expected - total_collected`, per-status payment counts, and the
lifter's identity/type when one is assigned. -/
theorem calculate_payment_summary_spec (db : DB) (chit : Chit) (n : Nat) :
    (calculate_payment_summary db chit n = none ↔
      ∀ s ∈ db.schedules, ¬(s.chit_id = chit.chit_id ∧ s.month_number = n)) ∧
    (∀ s, db.schedules.find?
        (fun s => s.chit_id == chit.chit_id && s.month_number == n) = some s →
      ∃ sum, calculate_payment_summary db chit n = some sum ∧
        sum.month_number = n ∧
        sum.lift_amount = s.lift_amount ∧
        sum.no_lift_amount = s.no_lift_amount ∧
        sum.total_expected = s.no_lift_amount * ((chit.total_slots : ℚ) - 1) ∧
        sum.total_collected =
          ((db.payments.filter
            (fun p => (p.status == PaymentStatus.paid &&
              decide (0 < p.amount_paid)) && p.chit_schedule == s.id)).map
                (fun p => p.amount_paid)).sum ∧
        sum.balance = sum.total_expected - sum.total_collected ∧
        sum.paid_count = db.payments.countP
          (fun p => p.status == PaymentStatus.paid && p.chit_schedule == s.id) ∧
        sum.pending_count = db.payments.countP
          (fun p => p.status == PaymentStatus.pending &&
            p.chit_schedule == s.id) ∧
        sum.late_count = db.payments.countP
          (fun p => p.status == PaymentStatus.late && p.chit_schedule == s.id) ∧
        (sum.lifter = none ↔
          s.lifted_by_membership = none ∧ s.lifted_by_external = none) ∧
        (∀ mid, s.lifted_by_membership = some mid →
          sum.lifter = some ⟨membershipUserName db mid, "verified"⟩) ∧
        (s.lifted_by_membership = none →
          ∀ eid, s.lifted_by_external = some eid →
            sum.lifter = some
              ⟨(db.externals.find? (fun e => e.member_id == eid)).bind
                (fun e => e.name), "external"⟩)) := by
  constructor
  · cases hfind : db.schedules.find?
        (fun s => s.chit_id == chit.chit_id && s.month_number == n) with
    | none =>
      simp only [calculate_payment_summary, hfind]
      constructor
      · intro _ s hs hpred
        have := List.find?_eq_none.mp hfind s hs
        simp [hpred.1, hpred.2] at this
      · intro _
        trivial
    | some s =>
      simp only [calculate_payment_summary, hfind]
      constructor
      · intro h
        cases h
      · intro h
        have hmem := List.mem_of_find?_eq_some hfind
        have hpred := List.find?_some hfind
        simp only [Bool.and_eq_true, beq_iff_eq] at hpred
        exact absurd ⟨hpred.1, hpred.2⟩ (h s hmem)
  · intro s hfind
    simp only [calculate_payment_summary, hfind]
    refine ⟨_, rfl, rfl, rfl, rfl, rfl, ?_, rfl, ?_, ?_, ?_, ?_, ?_, ?_⟩
    · simp only [List.filter_filter]
    · simp only [List.filter_filter, List.countP_eq_length_filter]
    · simp only [List.filter_filter, List.countP_eq_length_filter]
    · simp only [List.filter_filter, List.countP_eq_length_filter]
    · cases hm : s.lifted_by_membership with
      | some mid => simp [hm]
      | none =>
        cases he : s.lifted_by_external with
        | some eid => simp [hm, he]
        | none => simp [hm, he]
    · intro mid hm
      simp [hm]
    · intro hm eid he
      simp [hm, he]

/-- Witness for C2, instantiating the spec's example: schedule with
`no_lift_amount = 100` in a 5-slot chit, three paid contributions of 100
each, so `total_expected = 400`, `total_collected = 300`, `balance = 100`. -/
theorem calculate_payment_summary_spec_witness :
    exDBPaid.schedules.find?
        (fun s => s.chit_id == exChit.chit_id && s.month_number == 1) =
      some exSchedule1 ∧
    ∃ sum, calculate_payment_summary exDBPaid exChit 1 = some sum ∧
      sum.total_expected = 400 ∧ sum.total_collected = 300 ∧
      sum.balance = 100 ∧ sum.paid_count = 4 ∧ sum.pending_count = 1 := by
  have hfind : exDBPaid.schedules.find?
      (fun s => s.chit_id == exChit.chit_id && s.month_number == 1) =
        some exSchedule1 := by
    rfl
  rcases (calculate_payment_summary_spec exDBPaid exChit 1).2 exSchedule1 hfind
    with ⟨sum, hsum, _, _, _, hexp, hcol, hbal, hpaid, hpend, _⟩
  refine ⟨hfind, sum, hsum, ?_, ?_, ?_, ?_, ?_⟩
  · rw [hexp]
    norm_num [exSchedule1, exChit]
  · rw [hcol]
    norm_num [exDBPaid, exDB, exSchedule1, List.filter, paymentStatus_beq_eval.2.2.2.2.1, paymentStatus_beq_eval.2.2.2.1, paymentStatus_beq_eval.1, paymentStatus_beq_eval.2.1]
  · rw [hbal, hexp, hcol]
    norm_num [exDBPaid, exDB, exSchedule1, exChit, List.filter, paymentStatus_beq_eval.2.2.2.2.1, paymentStatus_beq_eval.2.2.2.1, paymentStatus_beq_eval.1, paymentStatus_beq_eval.2.1]
  · rw [hpaid]
    norm_num [exDBPaid, exDB, exSchedule1, List.countP, List.countP.go, paymentStatus_beq_eval.2.2.2.2.1, paymentStatus_beq_eval.2.2.2.1, paymentStatus_beq_eval.1, paymentStatus_beq_eval.2.1]
  · rw [hpend]
    norm_num [exDBPaid, exDB, exSchedule1, List.countP, List.countP.go, paymentStatus_beq_eval.2.2.2.2.1, paymentStatus_beq_eval.2.2.2.1, paymentStatus_beq_eval.1, paymentStatus_beq_eval.2.1]

/-- Witness for C1: on the example ledger (lifter = membership 10), every
created row is pending, and membership 10 receives a row with the lifter
amount formula. -/
theorem generate_payment_expectations_amounts_witness :
    (exDB.memberships.map Membership.membership_id).Nodup ∧
    (exDB.externals.map ExternalMember.member_id).Nodup ∧
    (∀ p ∈ (generate_payment_expectations exDB exChit exSchedule1).2,
      p.status = .pending) ∧
    (∃ p ∈ (generate_payment_expectations exDB exChit exSchedule1).2,
      p.membership = some 10 ∧ p.status = .pending ∧
      p.amount_paid =
        (if exSchedule1.lifted_by_membership = some 10 then
          -(exChit.total_amount - exSchedule1.lift_amount)
        else exSchedule1.no_lift_amount * ((1 : Nat) : ℚ))) := by
  have h := generate_payment_expectations_amounts exDB exChit exSchedule1
    (by decide) (by decide)
  refine ⟨by decide, by decide, fun p hp => (h.1 p hp).1, ?_⟩
  exact h.2.1 ⟨10, 1, 1, 1, true⟩ (by decide) (by decide)
    (by intro p hp; simp [exDB] at hp)

/-- C3 counterexample: with `start_date = 2025-01-15` and `duration_months
= 12`, the date 2026-01-01 is neither before `start_date` nor after
`start_date + duration_months` (= 2026-01-15), yet `calculate_current_month`
returns `None` (the formula gives 13 > 12), not a value in `[1, 12]` as the
claim's "otherwise" clause requires. -/
theorem calculate_current_month_counterexample :
    Date.before ⟨2026, 1, 1⟩ exChit.start_date = false ∧
    Date.before (exChit.start_date.addMonths exChit.duration_months)
      ⟨2026, 1, 1⟩ = false ∧
    ((2026 - exChit.start_date.year) * 12 +
      (1 - exChit.start_date.month) + 1 = 13) ∧
    calculate_current_month exChit ⟨2026, 1, 1⟩ = none := by
  refine ⟨by decide, by decide, by decide, by decide⟩

/-- C3 (amended): `calculate_current_month` returns `None` before
`start_date` and `None` after `start_date + duration_months`; whenever it
returns a value, that value is `(year_diff * 12 + month_diff) + 1` and lies
in `[1, duration_months]`; and on or after `start_date` it returns exactly
that formula value whenever the value is at most `duration_months` (and
`None` otherwise, which can already happen for dates on or before
`start_date + duration_months`, as the counterexample shows).  Crossing a
calendar month boundary always increments the formula, with no
day-of-month rounding. -/
theorem calculate_current_month_amended (chit : Chit) (today : Date)
    (hs1 : 1 ≤ chit.start_date.month) (hs2 : chit.start_date.month ≤ 12)
    (ht1 : 1 ≤ today.month) (ht2 : today.month ≤ 12) :
    (Date.before today chit.start_date = true →
      calculate_current_month chit today = none) ∧
    (Date.before (chit.start_date.addMonths chit.duration_months) today = true →
      calculate_current_month chit today = none) ∧
    (∀ v, calculate_current_month chit today = some v →
      1 ≤ v ∧ v ≤ (chit.duration_months : Int) ∧
      v = (today.year - chit.start_date.year) * 12 +
        (today.month - chit.start_date.month) + 1) ∧
    (Date.before today chit.start_date = false →
      (today.year - chit.start_date.year) * 12 +
          (today.month - chit.start_date.month) + 1 ≤
        (chit.duration_months : Int) →
      calculate_current_month chit today =
        some ((today.year - chit.start_date.year) * 12 +
          (today.month - chit.start_date.month) + 1)) := by
  refine ⟨?_, ?_, ?_, ?_⟩
  · intro h
    simp [calculate_current_month, h]
  · intro h
    have hnb : ¬ (Date.before today chit.start_date = true) := by
      simp only [Date.before, Date.addMonths, Bool.or_eq_true, Bool.and_eq_true,
        decide_eq_true_eq, beq_iff_eq] at h ⊢
      omega
    have hgt : (chit.duration_months : Int) <
        (today.year - chit.start_date.year) * 12 +
          (today.month - chit.start_date.month) + 1 := by
      simp only [Date.before, Date.addMonths, Bool.or_eq_true, Bool.and_eq_true,
        decide_eq_true_eq, beq_iff_eq] at h
      omega
    simp [calculate_current_month, hnb, hgt]
  · intro v hv
    by_cases hb : Date.before today chit.start_date
    · simp [calculate_current_month, hb] at hv
    · by_cases hd : (chit.duration_months : Int) <
          (today.year - chit.start_date.year) * 12 +
            (today.month - chit.start_date.month) + 1
      · simp [calculate_current_month, hb, hd] at hv
      · simp only [calculate_current_month, hb, hd, Bool.false_eq_true,
          if_false, decide_eq_true_eq, Option.some.injEq] at hv
        have hge : ¬ Date.before today chit.start_date = true := by simp [hb]
        simp only [Date.before, Bool.or_eq_true, Bool.and_eq_true,
          decide_eq_true_eq, beq_iff_eq] at hge
        refine ⟨?_, ?_, hv.symm⟩ <;> omega
  · intro hb hd
    have hd' : ¬ ((chit.duration_months : Int) <
        (today.year - chit.start_date.year) * 12 +
          (today.month - chit.start_date.month) + 1) := by omega
    simp [calculate_current_month, hb, hd']

/-- Witness for C3 (amended): the spec's own example, `start_date =
2025-01-15`, `duration_months = 12`, evaluated at 2025-02-01, gives
month 2. -/
theorem calculate_current_month_amended_witness :
    (1 ≤ exChit.start_date.month ∧ exChit.start_date.month ≤ 12 ∧
      (1 : Int) ≤ 2 ∧ (2 : Int) ≤ 12) ∧
    calculate_current_month exChit ⟨2025, 2, 1⟩ = some 2 ∧
    calculate_current_month exChit ⟨2025, 1, 20⟩ = some 1 ∧
    calculate_current_month exChit ⟨2026, 2, 1⟩ = none := by
  have h := (calculate_current_month_amended exChit ⟨2025, 2, 1⟩
    (by decide) (by decide) (by decide) (by decide)).2.2.2
    (by decide) (by decide)
  exact ⟨⟨by decide, by decide, by decide, by decide⟩, by simpa using h,
    by decide, by decide⟩

/-- C5: adding an external member whose requested `slot_count`, added to the
slots already used, would exceed `total_slots` is rejected with the error
"Not enough available slots" and does not mutate state: the very same store
is returned and no member row is created. -/
theorem add_external_member_rejects_overflow (db : DB) (chit : Chit)
    (req : ExternalMemberRequest)
    (h : chit.total_slots < (get_available_slots db chit).1 + req.slot_count) :
    add_external_member db chit req =
      .badRequest db "Not enough available slots" ∧
    (∀ db2 mid, add_external_member db chit req ≠ .created db2 mid) ∧
    (∀ db2 msg, add_external_member db chit req = .badRequest db2 msg →
      db2.externals = db.externals ∧ db2.memberships = db.memberships ∧
      (get_available_slots db2 chit).1 = (get_available_slots db chit).1) := by
  have hmain : add_external_member db chit req =
      .badRequest db "Not enough available slots" := by
    simp only [add_external_member, decide_eq_true_eq]
    exact if_pos h
  refine ⟨hmain, ?_, ?_⟩
  · intro db2 mid hcontra
    rw [hmain] at hcontra
    cases hcontra
  · intro db2 msg heq
    rw [hmain] at heq
    cases heq
    exact ⟨rfl, rfl, rfl⟩

/-- Witness for C5: on `exDB` (4 of 5 slots used) a 2-slot join request is
rejected and the store is unchanged. -/
theorem add_external_member_rejects_overflow_witness :
    exChit.total_slots <
      (get_available_slots exDB exChit).1 + exOverflowReq.slot_count ∧
    add_external_member exDB exChit exOverflowReq =
      .badRequest exDB "Not enough available slots" :=
  ⟨by decide,
    (add_external_member_rejects_overflow exDB exChit exOverflowReq
      (by decide)).1⟩

/-- C6 counterexample: membership 10 is already recorded as lifter on
schedule 100 of the example chit, and the eligibility check duly returns
`False` with the reason string; yet the assign-lifter endpoint, which never
invokes that check, happily records membership 10 as lifter on schedule 101
as well, leaving the member recorded as lifter on two schedules of the same
chit — refuting the claim that the assignment operation does not record
them a second time. -/
theorem lift_assignment_counterexample :
    (check_if_member_can_lift exDB exChit 10 "verified").1 = false ∧
    (check_if_member_can_lift exDB exChit 10 "verified").2 =
      "Member has already lifted in this chit" ∧
    (writeResultDB (schedule_assign_lifter exDB 101 "verified" 10)).map
      (fun db => db.schedules.countP
        (fun s => s.chit_id == exChit.chit_id &&
          s.lifted_by_membership == some 10)) = some 2 := by
  refine ⟨by decide, rfl, by decide⟩

/-- C6 (amended): `check_if_member_can_lift` returns `True` exactly when no
schedule of the chit records the member (by id and kind) as lifter, and
pairs `False` with the reason "Member has already lifted in this chit"; but
the assign-lifter endpoint does not consult this check, so an already-lifted
member can still be recorded on a second schedule (see the
counterexample). -/
theorem check_if_member_can_lift_iff (db : DB) (chit : Chit) (mid : Nat)
    (mt : String) :
    ((check_if_member_can_lift db chit mid "verified").1 = true ↔
      ∀ s ∈ db.schedules, s.chit_id = chit.chit_id →
        s.lifted_by_membership ≠ some mid) ∧
    ((check_if_member_can_lift db chit mid "external").1 = true ↔
      ∀ s ∈ db.schedules, s.chit_id = chit.chit_id →
        s.lifted_by_external ≠ some mid) ∧
    ((check_if_member_can_lift db chit mid mt).1 = false →
      (check_if_member_can_lift db chit mid mt).2 =
        "Member has already lifted in this chit") ∧
    ((check_if_member_can_lift db chit mid mt).1 = true →
      (check_if_member_can_lift db chit mid mt).2 = "Eligible to lift") := by
  refine ⟨?_, ?_, ?_, ?_⟩
  · cases hany : db.schedules.any
        (fun s => s.chit_id == chit.chit_id &&
          s.lifted_by_membership == some mid) with
    | true =>
      rcases List.any_eq_true.mp hany with ⟨s, hs, hp⟩
      simp only [Bool.and_eq_true, beq_iff_eq] at hp
      simp only [check_if_member_can_lift, hany]
      constructor
      · intro hcontra
        simp at hcontra
      · intro hall
        exact absurd hp.2 (hall s hs hp.1)
    | false =>
      have hall := List.any_eq_false.mp hany
      simp only [check_if_member_can_lift, hany]
      constructor
      · intro _ s hs hc hlift
        exact hall s hs (by simp [hc, hlift])
      · intro _
        rfl
  · cases hany : db.schedules.any
        (fun s => s.chit_id == chit.chit_id &&
          s.lifted_by_external == some mid) with
    | true =>
      rcases List.any_eq_true.mp hany with ⟨s, hs, hp⟩
      simp only [Bool.and_eq_true, beq_iff_eq] at hp
      simp only [check_if_member_can_lift, hany]
      constructor
      · intro hcontra
        simp at hcontra
      · intro hall
        exact absurd hp.2 (hall s hs hp.1)
    | false =>
      have hall := List.any_eq_false.mp hany
      simp only [check_if_member_can_lift, hany]
      constructor
      · intro _ s hs hc hlift
        exact hall s hs (by simp [hc, hlift])
      · intro _
        rfl
  · intro hfalse
    by_cases hmt : (mt == "verified") = true
    · by_cases hany : (db.schedules.any fun s =>
          s.chit_id == chit.chit_id && s.lifted_by_membership == some mid) = true
      · simp [check_if_member_can_lift, hmt, hany]
      · simp [check_if_member_can_lift, hmt, hany] at hfalse
    · by_cases hany : (db.schedules.any fun s =>
          s.chit_id == chit.chit_id && s.lifted_by_external == some mid) = true
      · simp [check_if_member_can_lift, hmt, hany]
      · simp [check_if_member_can_lift, hmt, hany] at hfalse
  · intro htrue
    by_cases hmt : (mt == "verified") = true
    · by_cases hany : (db.schedules.any fun s =>
          s.chit_id == chit.chit_id && s.lifted_by_membership == some mid) = true
      · simp [check_if_member_can_lift, hmt, hany] at htrue
      · simp [check_if_member_can_lift, hmt, hany]
    · by_cases hany : (db.schedules.any fun s =>
          s.chit_id == chit.chit_id && s.lifted_by_external == some mid) = true
      · simp [check_if_member_can_lift, hmt, hany] at htrue
      · simp [check_if_member_can_lift, hmt, hany]

/-- Witness for C6 (amended): membership 10 already lifted in `exDB`, so
the check reports the reason string. -/
theorem check_if_member_can_lift_iff_witness :
    (check_if_member_can_lift exDB exChit 10 "verified").1 = false ∧
    (check_if_member_can_lift exDB exChit 10 "verified").2 =
      "Member has already lifted in this chit" :=
  ⟨by decide,
    (check_if_member_can_lift_iff exDB exChit 10 "verified").2.2.1 (by decide)⟩

/-- C7: `validate_chit_completion` reports `is_valid = True` with an empty
issues list exactly when (a) every schedule of the chit has a lifter
assigned, (b) no payment of the chit is pending or late, and (c) every
schedule of the chit has at least one payment; otherwise `is_valid = False`
and the issues list carries exactly one entry per violated condition
category. -/
theorem validate_chit_completion_iff (db : DB) (chit : Chit) :
    ((validate_chit_completion db chit).1 = true ↔
      ((∀ s ∈ db.schedules, s.chit_id = chit.chit_id →
          (s.lifted_by_membership ≠ none ∨ s.lifted_by_external ≠ none)) ∧
        (∀ p ∈ db.payments, paymentInChit db chit p = true →
          (p.status ≠ .pending ∧ p.status ≠ .late)) ∧
        (∀ s ∈ db.schedules, s.chit_id = chit.chit_id →
          ∃ p ∈ db.payments, p.chit_schedule = s.id))) ∧
    ((validate_chit_completion db chit).2 = [] ↔
      (validate_chit_completion db chit).1 = true) ∧
    ((validate_chit_completion db chit).2.length =
      (if ∀ s ∈ db.schedules, s.chit_id = chit.chit_id →
          (s.lifted_by_membership ≠ none ∨ s.lifted_by_external ≠ none)
        then 0 else 1) +
      (if ∀ p ∈ db.payments, paymentInChit db chit p = true →
          (p.status ≠ .pending ∧ p.status ≠ .late)
        then 0 else 1) +
      (if ∀ s ∈ db.schedules, s.chit_id = chit.chit_id →
          ∃ p ∈ db.payments, p.chit_schedule = s.id
        then 0 else 1)) := by
  have hA : ((db.schedules.filter
      (fun s => s.chit_id == chit.chit_id &&
        s.lifted_by_membership == none && s.lifted_by_external == none)).length
        = 0) ↔
      (∀ s ∈ db.schedules, s.chit_id = chit.chit_id →
        (s.lifted_by_membership ≠ none ∨ s.lifted_by_external ≠ none)) := by
    rw [List.length_eq_zero, List.filter_eq_nil_iff]
    constructor
    · intro h s hs hc
      have := h s hs
      simp only [Bool.and_eq_true, beq_iff_eq, not_and] at this
      rcases Decidable.em (s.lifted_by_membership = none) with hm | hm
      · exact Or.inr (this ⟨hc, hm⟩)
      · exact Or.inl hm
    · intro h s hs
      simp only [Bool.and_eq_true, beq_iff_eq, not_and]
      intro hcm
      rcases h s hs hcm.1 with hm | he
      · exact absurd hcm.2 hm
      · exact he
  have hB : ((db.payments.filter
      (fun p => paymentInChit db chit p &&
        (p.status == PaymentStatus.pending ||
          p.status == PaymentStatus.late))).length = 0) ↔
      (∀ p ∈ db.payments, paymentInChit db chit p = true →
        (p.status ≠ .pending ∧ p.status ≠ .late)) := by
    rw [List.length_eq_zero, List.filter_eq_nil_iff]
    constructor
    · intro h p hp hin
      have := h p hp
      simp only [hin, Bool.true_and, Bool.or_eq_true, beq_iff_eq, not_or] at this
      exact this
    · intro h p hp
      simp only [Bool.and_eq_true, Bool.or_eq_true, beq_iff_eq, not_and, not_or]
      intro hin
      exact h p hp hin
  have hC : ((db.schedules.filter
      (fun s => s.chit_id == chit.chit_id &&
        (db.payments.filter (fun p => p.chit_schedule == s.id)).length == 0)).length
        = 0) ↔
      (∀ s ∈ db.schedules, s.chit_id = chit.chit_id →
        ∃ p ∈ db.payments, p.chit_schedule = s.id) := by
    rw [List.length_eq_zero, List.filter_eq_nil_iff]
    constructor
    · intro h s hs hc
      have := h s hs
      simp only [Bool.and_eq_true, beq_iff_eq, not_and, hc, true_implies,
        List.length_eq_zero, List.filter_eq_nil_iff, not_forall] at this
      rcases this with ⟨p, hp1, hp2⟩
      exact ⟨p, hp1, not_not.mp hp2⟩
    · intro h s hs
      simp only [Bool.and_eq_true, beq_iff_eq, not_and, List.length_eq_zero,
        List.filter_eq_nil_iff]
      intro hc hall
      rcases h s hs hc with ⟨p, hp, hps⟩
      exact hall p hp (by simp [hps])
  simp only [validate_chit_completion]
  rcases Nat.eq_zero_or_pos (db.schedules.filter
      (fun s => s.chit_id == chit.chit_id &&
        s.lifted_by_membership == none && s.lifted_by_external == none)).length
    with h1 | h1 <;>
  rcases Nat.eq_zero_or_pos (db.payments.filter
      (fun p => paymentInChit db chit p &&
        (p.status == PaymentStatus.pending ||
          p.status == PaymentStatus.late))).length
    with h2 | h2 <;>
  rcases Nat.eq_zero_or_pos (db.schedules.filter
      (fun s => s.chit_id == chit.chit_id &&
        (db.payments.filter (fun p => p.chit_schedule == s.id)).length == 0)).length
    with h3 | h3
  all_goals
    simp only [h1, h2, h3, if_pos, if_neg, lt_irrefl]
  all_goals
    refine ⟨?_, ?_, ?_⟩ <;>
      simp [hA.mp, hB.mp, hC.mp, ← hA, ← hB, ← hC, h1, h2, h3,
        Nat.pos_iff_ne_zero.mp, Nat.ne_of_gt, if_pos, if_neg]

/-- Witness for C7: on the paid example ledger all three completion
conditions are violated (schedule 101 has no lifter and no payments, and
one payment is pending), so validation fails with exactly three issues. -/
theorem validate_chit_completion_iff_witness :
    (validate_chit_completion exDBPaid exChit).1 = false ∧
    (validate_chit_completion exDBPaid exChit).2.length = 3 := by
  refine ⟨by decide, ?_⟩
  rw [(validate_chit_completion_iff exDBPaid exChit).2.2]
  decide

/-- C8 is violated (code bug): `ChitScheduleUpdateSerializer.validate` only
inspects the incoming request data, not the stored row.  Starting from the
example ledger (schedule 101 has no lifter), assigning membership 10 as
lifter via the assign-lifter endpoint and then PATCHing update-month with
only `lifted_by_external = 20` passes validation and leaves BOTH lifter
columns non-null on schedule 101 — contradicting the claimed invariant that
at most one lifter reference is ever set. -/
theorem schedule_lifter_mutual_exclusion_violated :
    chitScheduleUpdateValidate ⟨none, none, some (some 20)⟩ = true ∧
    ((writeResultDB (schedule_assign_lifter exDB 101 "verified" 10)).bind
      (fun db1 => writeResultDB (schedule_update_month db1 101
        ⟨none, none, some (some 20)⟩))).map
      (fun db2 => db2.schedules.countP
        (fun s => s.lifted_by_membership.isSome &&
          s.lifted_by_external.isSome)) = some 1 := by
  exact ⟨rfl, by decide⟩

/-- C9 is violated (code bug): `core/models.py` declares
`Payment.membership` as a non-nullable foreign key, yet both creation paths
build external-member-only rows with `membership` unset.
`PaymentCreateSerializer.validate` explicitly accepts an
external-member-only request, and `generate_payment_expectations` builds an
external member's row with no membership — in both cases the row violates
the declared NOT NULL column, so on a real database the insert raises
`IntegrityError` instead of persisting the row the spec describes. -/
theorem payment_membership_not_null_bug :
    paymentCreateValidate exPaymentReq = true ∧
    (createdPayment (payment_create exDB exPaymentReq)).map
      (fun p => p.membership.isNone && !(paymentRowNullabilityOk p)) =
      some true ∧
    (∃ p ∈ (generate_payment_expectations exDB exChit exSchedule1).2,
      p.external_member = some 20 ∧ p.membership = none ∧
      paymentRowNullabilityOk p = false) := by
  refine ⟨rfl, by decide, by decide⟩

theorem countP_range_succ_eq (n m : Nat) :
    (List.range n).countP (fun i => i + 1 == m) =
      if 1 ≤ m ∧ m ≤ n then 1 else 0 := by
  cases m with
  | zero =>
    rw [List.countP_eq_zero.mpr (by intro i _; simp)]
    simp
  | succ k =>
    have hp : (fun i => i + 1 == k + 1) = (fun i => i == k) := by
      funext i
      by_cases h : i = k <;> simp [h]
    rw [hp]
    have hc : (List.range n).countP (fun i => i == k) = (List.range n).count k :=
      rfl
    rw [hc, count_range_eq]
    by_cases h : k < n
    · rw [if_pos h, if_pos ⟨Nat.le_add_left 1 k, h⟩]
    · rw [if_neg h, if_neg (fun hc' => h hc'.2)]

/-- Distance of a rational from its ties-to-even rounding is at most a
half. -/
theorem roundHalfEven_close (x : ℚ) : |(roundHalfEven x : ℚ) - x| ≤ 1 / 2 := by
  have hfl : ((⌊x⌋ : ℤ) : ℚ) ≤ x := Int.floor_le x
  have hlt : x < (⌊x⌋ : ℤ) + 1 := Int.lt_floor_add_one x
  unfold roundHalfEven
  by_cases h1 : x - ⌊x⌋ < 1 / 2
  · rw [if_pos h1, abs_le]
    constructor <;> linarith
  · rw [if_neg h1]
    by_cases h2 : 1 / 2 < x - ⌊x⌋
    · rw [if_pos h2, abs_le]
      push_cast
      constructor <;> linarith
    · rw [if_neg h2]
      by_cases h3 : ⌊x⌋ % 2 = 0
      · rw [if_pos h3, abs_le]
        constructor <;> linarith
      · rw [if_neg h3, abs_le]
        push_cast
        constructor <;> linarith

/-- The 2-decimal column quantization moves a value by at most `1/200`
(half of the last stored decimal place). -/
theorem quantizeAt_two_close (x : ℚ) : |quantizeAt 2 x - x| ≤ 1 / 200 := by
  have h := roundHalfEven_close (x * 10 ^ (2 : ℤ))
  have h100 : ((10 : ℚ) ^ (2 : ℤ)) = 100 := by norm_num
  unfold quantizeAt
  rw [h100] at h ⊢
  rw [show (roundHalfEven (x * 100) : ℚ) / 100 - x =
    ((roundHalfEven (x * 100) : ℚ) - x * 100) / 100 from by ring]
  rw [abs_div, show |(100 : ℚ)| = 100 from by norm_num]
  linarith

/-- C10 counterexample: on the request with `total_amount - lift_amount =
1` and `total_slots = 4` the exact quotient is `1/3`, but the program
computes the 28-digit Decimal quotient and stores it in the 2-decimal
`no_lift_amount` column as `0.33`; the created schedule therefore does not
carry `(total_amount - lift_amount) / (total_slots - 1)` as the claim
states. -/
theorem chit_create_no_lift_rounding_counterexample :
    1 < exThirdReq.total_slots ∧
    (∃ s ∈ (chit_create exDB 1 exThirdReq).1.schedules,
      s.chit_id = (chit_create exDB 1 exThirdReq).2.chit_id ∧
      s.no_lift_amount = 33 / 100) ∧
    (∀ s ∈ (chit_create exDB 1 exThirdReq).1.schedules,
      s.chit_id = (chit_create exDB 1 exThirdReq).2.chit_id →
        s.no_lift_amount ≠
          (exThirdReq.total_amount - exThirdReq.lift_amount) /
            ((exThirdReq.total_slots : ℚ) - 1)) := by
  have harg1 : exThirdReq.total_amount - exThirdReq.lift_amount = 1 := by
    norm_num [exThirdReq]
  have harg2 : ((exThirdReq.total_slots : ℚ) - 1) = 3 := by
    norm_num [exThirdReq]
  have hNe : decimalExponent ((1 : ℚ) / 3) = -1 := by
    have habs : |(1 : ℚ) / 3| = 1 / 3 := by norm_num
    simp only [decimalExponent, habs]
    rw [if_neg (by norm_num)]
    rw [show (1 : ℚ) / (1 / 3) = 3 from by norm_num]
    rw [show ⌊(3 : ℚ)⌋ = 3 from by norm_num]
    rw [show (3 : ℤ).toNat = 3 from rfl]
    rw [show Nat.log 10 3 = 0 from
      Nat.log_eq_of_pow_le_of_lt_pow (by norm_num) (by norm_num)]
    rw [if_neg (by norm_num)]
    norm_num
  have hNfloor : ⌊(1 : ℚ) / 3 * (10 : ℚ) ^ (28 : ℤ)⌋ =
      3333333333333333333333333333 := by
    rw [Int.floor_eq_iff]
    constructor <;> norm_num
  have hround1 : roundHalfEven ((1 : ℚ) / 3 * (10 : ℚ) ^ (28 : ℤ)) =
      3333333333333333333333333333 := by
    unfold roundHalfEven
    rw [hNfloor, if_pos (by norm_num)]
  have hdiv : decimalDiv 1 3 =
      (3333333333333333333333333333 : ℚ) / (10 : ℚ) ^ (28 : ℤ) := by
    simp only [decimalDiv]
    rw [if_neg (by norm_num), hNe]
    rw [show (27 : ℤ) - -1 = 28 from by norm_num]
    unfold quantizeAt
    rw [hround1]
    norm_num
  have hfloor2 : ⌊(3333333333333333333333333333 : ℚ) / (10 : ℚ) ^ (28 : ℤ) *
      (10 : ℚ) ^ (2 : ℤ)⌋ = 33 := by
    rw [Int.floor_eq_iff]
    constructor <;> norm_num
  have hround2 : roundHalfEven ((3333333333333333333333333333 : ℚ) /
      (10 : ℚ) ^ (28 : ℤ) * (10 : ℚ) ^ (2 : ℤ)) = 33 := by
    unfold roundHalfEven
    rw [hfloor2, if_pos (by norm_num)]
  have hquant : quantizeAt 2
      ((3333333333333333333333333333 : ℚ) / (10 : ℚ) ^ (28 : ℤ)) =
      33 / 100 := by
    unfold quantizeAt
    rw [hround2]
    norm_num
  have hval : (if 1 < exThirdReq.total_slots then
      quantizeAt 2 (decimalDiv
        (exThirdReq.total_amount - exThirdReq.lift_amount)
        ((exThirdReq.total_slots : ℚ) - 1))
    else 0) = 33 / 100 := by
    rw [if_pos (by norm_num [exThirdReq]), harg1, harg2, hdiv, hquant]
  have hsched : (chit_create exDB 1 exThirdReq).1.schedules =
      exDB.schedules ++
        [{ id := exDB.next_schedule_id + 0
           chit_id := exDB.next_chit_id
           month_number := 0 + 1
           lift_amount := exThirdReq.lift_amount
           no_lift_amount :=
             if 1 < exThirdReq.total_slots then
               quantizeAt 2 (decimalDiv
                 (exThirdReq.total_amount - exThirdReq.lift_amount)
                 ((exThirdReq.total_slots : ℚ) - 1))
             else 0
           lifted_by_membership := none
           lifted_by_external := none }] := rfl
  refine ⟨by norm_num [exThirdReq], ?_, ?_⟩
  · rw [hsched]
    exact ⟨_, List.mem_append_right _ (List.mem_singleton_self _), rfl, hval⟩
  · intro s hs hc
    rw [hsched] at hs
    rcases List.mem_append.mp hs with hold | hnew
    · exfalso
      simp only [exDB, List.mem_cons, List.not_mem_nil, or_false] at hold
      rcases hold with rfl | rfl <;> exact absurd hc (by decide)
    · rw [List.mem_singleton.mp hnew]
      simp only [hval]
      rw [harg1, harg2]
      norm_num

/-- C10 (amended): chit creation generates exactly one `ChitSchedule` per
`month_number` in `[1, duration_months]` (and none outside), each carrying
`lift_amount` equal to the chit's `lift_amount` and no lifter assigned;
when `total_slots > 1` the stored `no_lift_amount` is the quotient
`(total_amount - lift_amount) / (total_slots - 1)` as the program computes
and stores it — the Python `Decimal` division (28 significant digits, ties
to even) quantized to the 2-decimal `DecimalField` column — which is an
integer number of hundredths within `1/200` of that Decimal quotient (and
`0` when `total_slots <= 1`). -/
theorem chit_create_schedules_amended (db : DB) (org : Nat)
    (d : ChitCreateRequest)
    (hfresh : ∀ s ∈ db.schedules, s.chit_id ≠ db.next_chit_id) :
    (∀ m : Nat, ((chit_create db org d).1.schedules.countP
        (fun s => s.chit_id == (chit_create db org d).2.chit_id &&
          s.month_number == m)) =
        if 1 ≤ m ∧ m ≤ d.duration_months then 1 else 0) ∧
    (∀ s ∈ (chit_create db org d).1.schedules,
      s.chit_id = (chit_create db org d).2.chit_id →
        s.lift_amount = (chit_create db org d).2.lift_amount ∧
        s.no_lift_amount =
          (if 1 < d.total_slots then
            quantizeAt 2 (decimalDiv (d.total_amount - d.lift_amount)
              ((d.total_slots : ℚ) - 1))
          else 0) ∧
        (∃ z : ℤ, s.no_lift_amount = (z : ℚ) / 100) ∧
        (1 < d.total_slots →
          |s.no_lift_amount -
            decimalDiv (d.total_amount - d.lift_amount)
              ((d.total_slots : ℚ) - 1)| ≤ 1 / 200) ∧
        s.lifted_by_membership = none ∧ s.lifted_by_external = none) := by
  constructor
  · intro m
    have hsplit : (chit_create db org d).1.schedules =
        db.schedules ++ (List.range d.duration_months).map (fun i =>
          { id := db.next_schedule_id + i
            chit_id := db.next_chit_id
            month_number := i + 1
            lift_amount := d.lift_amount
            no_lift_amount :=
              if 1 < d.total_slots then
                quantizeAt 2 (decimalDiv (d.total_amount - d.lift_amount)
                  ((d.total_slots : ℚ) - 1))
              else 0
            lifted_by_membership := none
            lifted_by_external := none }) := rfl
    rw [hsplit, List.countP_append]
    have hold : db.schedules.countP
        (fun s => s.chit_id == (chit_create db org d).2.chit_id &&
          s.month_number == m) = 0 := by
      rw [List.countP_eq_zero]
      intro s hs
      have : s.chit_id ≠ db.next_chit_id := hfresh s hs
      simp only [Bool.and_eq_true, beq_iff_eq, not_and]
      intro hc
      exact absurd hc this
    rw [hold, Nat.zero_add, List.countP_map]
    have hcomp : ((fun s : ChitSchedule =>
        s.chit_id == (chit_create db org d).2.chit_id &&
          s.month_number == m) ∘ (fun i =>
          ({ id := db.next_schedule_id + i
             chit_id := db.next_chit_id
             month_number := i + 1
             lift_amount := d.lift_amount
             no_lift_amount :=
               if 1 < d.total_slots then
                 quantizeAt 2 (decimalDiv (d.total_amount - d.lift_amount)
                   ((d.total_slots : ℚ) - 1))
               else 0
             lifted_by_membership := none
             lifted_by_external := none } : ChitSchedule))) =
        (fun i => i + 1 == m) := by
      funext i
      simp [show (chit_create db org d).2.chit_id = db.next_chit_id from rfl]
    rw [hcomp, countP_range_succ_eq]
  · intro s hs hc
    have hsmem : s ∈ db.schedules ++ (List.range d.duration_months).map (fun i =>
        ({ id := db.next_schedule_id + i
           chit_id := db.next_chit_id
           month_number := i + 1
           lift_amount := d.lift_amount
           no_lift_amount :=
             if 1 < d.total_slots then
               quantizeAt 2 (decimalDiv (d.total_amount - d.lift_amount)
                 ((d.total_slots : ℚ) - 1))
             else 0
           lifted_by_membership := none
           lifted_by_external := none } : ChitSchedule)) := hs
    rcases List.mem_append.mp hsmem with hold | hnew
    · exact absurd hc (hfresh s hold)
    · rcases List.mem_map.mp hnew with ⟨i, _, rfl⟩
      refine ⟨rfl, rfl, ?_, ?_, rfl, rfl⟩
      · by_cases h : 1 < d.total_slots
        · refine ⟨roundHalfEven (decimalDiv (d.total_amount - d.lift_amount)
            ((d.total_slots : ℚ) - 1) * 10 ^ (2 : ℤ)), ?_⟩
          simp only [if_pos h, quantizeAt]
          rw [show ((10 : ℚ) ^ (2 : ℤ)) = 100 from by norm_num]
        · exact ⟨0, by simp [if_neg h]⟩
      · intro h
        simp only [if_pos h]
        exact quantizeAt_two_close _

/-- Witness for C10 (amended): creating the example 20-slot, 2-month chit
on `exDB` yields exactly one schedule for months 1 and 2 and none for
month 3. -/
theorem chit_create_schedules_amended_witness :
    (∀ s ∈ exDB.schedules, s.chit_id ≠ exDB.next_chit_id) ∧
    (((chit_create exDB 1 exCreateReq).1.schedules.countP
        (fun s => s.chit_id == (chit_create exDB 1 exCreateReq).2.chit_id &&
          s.month_number == 2)) =
      if 1 ≤ 2 ∧ 2 ≤ exCreateReq.duration_months then 1 else 0) ∧
    (((chit_create exDB 1 exCreateReq).1.schedules.countP
        (fun s => s.chit_id == (chit_create exDB 1 exCreateReq).2.chit_id &&
          s.month_number == 3)) =
      if 1 ≤ 3 ∧ 3 ≤ exCreateReq.duration_months then 1 else 0) :=
  ⟨by decide,
    (chit_create_schedules_amended exDB 1 exCreateReq (by decide)).1 2,
    (chit_create_schedules_amended exDB 1 exCreateReq (by decide)).1 3⟩

end ChitLedger
